import Mathlib

/-!
Shallow embedding of the campus-parking backend booking/availability core
(the inline Express handlers of the main server file): booking creation,
cancellation, check-in, check-out, event creation, availability derivation
and the expiry sweep, together with proofs about the claims on them.

Time is modelled at hour granularity: an instant is a number of hours since
an epoch, a calendar day is `t / 24`, and the source windows
`[startOfDay(D), endOfDay(D)]` become equality of the day number.
Mongo documents become entries of lists held in a `St` record; a Mongo
transaction becomes the pure state update of the success branch (an aborted
transaction returns the input state unchanged), and WebSocket broadcasts
become messages appended to a `broadcasts` log after the commit point.
-/

namespace CampusParking

/-- Calendar day of an hour instant, mirroring startOfDay and endOfDay
day-window comparisons of the source. -/
def dayOf (t : Nat) : Nat := t / 24

/-- First instant of the day of `t` (the startOfDay value of the source). -/
def startOfDay (t : Nat) : Nat := 24 * (t / 24)

/-- Booking lifecycle status, from the bookingSchema status enum. -/
inductive Status where
  | pending
  | active
  | checkedIn
  | checkedOut
  | completed
  | cancelled
  | expired
deriving DecidableEq, Repr

/-- Violation record pushed onto a booking by the expiry sweeper. -/
structure Violation where
  vtype : String
  timestamp : Nat
deriving DecidableEq, Repr

/-- Parking zone document (models/ParkingZone). -/
structure Zone where
  zid : Nat
  name : String
  ztype : String
  totalSlots : Nat
deriving DecidableEq, Repr

/-- Booking document (models/Booking). `date` is the hour instant stored in
the date field; `checkInTime` and `checkOutTime` are optional instants. -/
structure Booking where
  bid : Nat
  userId : Nat
  zoneId : Nat
  zoneName : String
  date : Nat
  startTime : Nat
  endTime : Nat
  duration : Nat
  vehicleNumber : String
  qrCode : String
  status : Status
  checkInTime : Option Nat
  checkOutTime : Option Nat
  violations : List Violation
deriving DecidableEq, Repr

/-- Event document (models/Event); `zoneId` is optional, as in the handler. -/
structure Event where
  eid : Nat
  name : String
  zoneId : Option Nat
  date : Nat
  allocatedSlots : Nat
deriving DecidableEq, Repr

/-- Notification document (models/Notification), the fields the handlers set. -/
structure Notif where
  userId : Nat
  title : String
  message : String
  ntype : String
deriving DecidableEq, Repr

/-- WebSocket broadcast message shapes produced by the handlers. -/
inductive Msg where
  | zoneUpdate (zoneId : Nat) (available : Int)
  | bookingCreated (userId : Nat) (zoneName : String)
  | bookingCancelled (userId : Nat) (zoneName : String)
  | notifMsg (userId : Nat) (title : String) (message : String) (ntype : String)
deriving DecidableEq, Repr

/-- Database plus broadcast log: the state every handler reads and writes. -/
structure St where
  zones : List Zone
  bookings : List Booking
  events : List Event
  notifications : List Notif
  broadcasts : List Msg
deriving DecidableEq, Repr

/-- Authenticated caller supplied by the auth middleware. -/
structure AuthUser where
  id : Nat
  role : String
deriving DecidableEq, Repr

/-- Zone.findById. -/
def findZone (s : St) (zid : Nat) : Option Zone :=
  s.zones.find? (fun z => decide (z.zid = zid))

/-- Booking.findById. -/
def findBooking (s : St) (bid : Nat) : Option Booking :=
  s.bookings.find? (fun b => decide (b.bid = bid))

/-- Booking.findOne on qrCode and status active, as in check-in and
check-out. -/
def findActiveByQr (s : St) (qr : String) : Option Booking :=
  s.bookings.find? (fun b => decide (b.qrCode = qr ∧ b.status = Status.active))

/-- Predicate of the countDocuments query used for capacity checks: same
zone, status active, date within the day window of day `d`. -/
def activeOn (zid d : Nat) (b : Booking) : Bool :=
  decide (b.zoneId = zid ∧ b.status = Status.active ∧ dayOf b.date = d)

/-- Booking.countDocuments of active bookings of a zone on a day. -/
def countActiveBookings (s : St) (zid d : Nat) : Nat :=
  s.bookings.countP (activeOn zid d)

/-- Booking.countDocuments of the event handler: active bookings of the zone
whose date instant is now or later (date gte new Date()). -/
def countFutureActive (s : St) (zid now : Nat) : Nat :=
  s.bookings.countP (fun b => decide (b.zoneId = zid ∧ b.status = Status.active ∧ now ≤ b.date))

/-- Event.aggregate sum of allocatedSlots over events of the zone dated at
or after cutoff instant `t0`. -/
def sumEventAllocFrom (s : St) (zid t0 : Nat) : Nat :=
  (s.events.filter (fun e => decide (e.zoneId = some zid ∧ t0 ≤ e.date))).foldl
    (fun acc e => acc + e.allocatedSlots) 0

/-- Availability helper getZoneAvailability: totalSlots minus active
bookings of the current day, clamped at zero; none when the zone is absent.
Event allocations are not subtracted here. -/
def getZoneAvailability (s : St) (zid now : Nat) : Option Int :=
  (findZone s zid).map
    (fun z => max 0 ((z.totalSlots : Int) - (countActiveBookings s zid (dayOf now) : Int)))

/-- Availability of one zone as computed by the GET zones listing handler:
totalSlots minus active bookings of today minus allocatedSlots of events
dated at or after start of today, clamped at zero. -/
def zoneListAvailable (s : St) (z : Zone) (now : Nat) : Int :=
  max 0 ((z.totalSlots : Int) - (countActiveBookings s z.zid (dayOf now) : Int)
    - (sumEventAllocFrom s z.zid (startOfDay now) : Int))

/-- Availability as computed by the GET zone availability endpoint for a
query date: totalSlots minus active bookings of that day, clamped at zero;
event allocations are not subtracted. -/
def zoneAvailabilityEndpoint (s : St) (zid qdate : Nat) : Option Int :=
  (findZone s zid).map
    (fun z => max 0 ((z.totalSlots : Int) - (countActiveBookings s zid (dayOf qdate) : Int)))

/-- Role to bookable zone types table of the booking handler, with the
default of general for unknown roles. -/
def accessRules (role : String) : List String :=
  match role with
  | "student" => ["student", "general"]
  | "staff" => ["staff", "student", "general"]
  | "visitor" => ["visitor", "general"]
  | "admin" => ["student", "staff", "visitor", "general", "event"]
  | _ => ["general"]

/-- Error outcomes of the booking creation handler, one per early return. -/
inductive BookErr where
  | unauthorized
  | zoneNotFound
  | accessDenied
  | duplicateBooking
  | noSlotsAvailable
deriving DecidableEq, Repr

/-- Request body of POST bookings after validation. -/
structure BookingReq where
  userId : Nat
  zoneId : Nat
  zoneName : String
  date : Nat
  duration : Nat
  vehicleNumber : String
deriving DecidableEq, Repr

/-- Booking.findOne duplicate check: same user, zone, active status, same
day window. -/
def hasDuplicateBooking (s : St) (userId zid d : Nat) : Bool :=
  s.bookings.any (fun b =>
    decide (b.userId = userId ∧ b.zoneId = zid ∧ b.status = Status.active ∧ dayOf b.date = d))

/-- Booking document constructed by the POST bookings handler: active
status, unset check times, startTime at the fixed 8:00 convention of the
booking day, endTime startTime plus duration. -/
def newBooking (req : BookingReq) (bid : Nat) (qr : String) : Booking :=
  { bid := bid, userId := req.userId, zoneId := req.zoneId,
    zoneName := req.zoneName, date := req.date,
    startTime := 24 * dayOf req.date + 8,
    endTime := 24 * dayOf req.date + 8 + req.duration,
    duration := req.duration, vehicleNumber := req.vehicleNumber,
    qrCode := qr, status := Status.active,
    checkInTime := none, checkOutTime := none, violations := [] }

/-- Confirmation notification created with the booking. -/
def confirmNotif (req : BookingReq) : Notif :=
  { userId := req.userId, title := "Booking Confirmed",
    message := req.zoneName, ntype := "success" }

/-- POST bookings handler. The whole body runs in one Mongo session; every
early return aborts the transaction, so it yields the input state unchanged.
On success the booking and its confirmation notification are committed
together and the two broadcasts are emitted after the commit. `bid` and `qr`
stand for the fresh document id and generated qrCode token. -/
def createBooking (s : St) (auth : AuthUser) (req : BookingReq) (bid : Nat)
    (qr : String) : Except BookErr Booking × St :=
  if auth.id ≠ req.userId then (Except.error BookErr.unauthorized, s)
  else
    match findZone s req.zoneId with
    | none => (Except.error BookErr.zoneNotFound, s)
    | some zone =>
      if ¬ (accessRules auth.role).contains zone.ztype then
        (Except.error BookErr.accessDenied, s)
      else
        let d := dayOf req.date
        if hasDuplicateBooking s req.userId req.zoneId d then
          (Except.error BookErr.duplicateBooking, s)
        else
          let activeBookings := countActiveBookings s req.zoneId d
          if zone.totalSlots ≤ activeBookings then
            (Except.error BookErr.noSlotsAvailable, s)
          else
            let b := newBooking req bid qr
            let newAvailable : Int :=
              max 0 ((zone.totalSlots : Int) - ((activeBookings : Int) + 1))
            (Except.ok b,
              { s with
                bookings := s.bookings ++ [b],
                notifications := s.notifications ++ [confirmNotif req],
                broadcasts := s.broadcasts ++
                  [Msg.zoneUpdate req.zoneId newAvailable,
                   Msg.bookingCreated req.userId req.zoneName] })

/-- Mongoose document save of a modified booking: replace the booking with
this document id, leave every other booking unchanged. -/
def updateBooking (s : St) (bid : Nat) (f : Booking → Booking) : St :=
  { s with bookings := s.bookings.map (fun b => if b.bid = bid then f b else b) }

/-- Error outcomes of the DELETE bookings handler. `serverError` is the 500
path taken when getZoneAvailability finds no zone after the save, in which
case the status flip and the notification are already persisted (this
handler runs outside any transaction). -/
inductive CancelErr where
  | notFound
  | unauthorized
  | alreadyCancelled
  | serverError
deriving DecidableEq, Repr

/-- DELETE bookings handler: owner-or-admin check, reject only when the
status is already cancelled, flip the status, create the notification, then
broadcast the zone availability of today and the cancellation. -/
def cancelBooking (s : St) (auth : AuthUser) (bid now : Nat) :
    Except CancelErr Unit × St :=
  match findBooking s bid with
  | none => (Except.error CancelErr.notFound, s)
  | some b =>
    if b.userId ≠ auth.id ∧ auth.role ≠ "admin" then
      (Except.error CancelErr.unauthorized, s)
    else if b.status = Status.cancelled then
      (Except.error CancelErr.alreadyCancelled, s)
    else
      let s1 := updateBooking s bid (fun b0 => { b0 with status := Status.cancelled })
      let s2 := { s1 with notifications := s1.notifications ++
        [{ userId := b.userId, title := "Booking Cancelled",
           message := b.zoneName, ntype := "warning" }] }
      match getZoneAvailability s2 b.zoneId now with
      | none => (Except.error CancelErr.serverError, s2)
      | some avail =>
        (Except.ok (),
          { s2 with broadcasts := s2.broadcasts ++
            [Msg.zoneUpdate b.zoneId avail,
             Msg.bookingCancelled b.userId b.zoneName] })

/-- Error outcomes of the check-in and check-out handlers. `invalidQr` is
the not-found response for a qrCode with no active booking; `serverError`
is the check-out 500 path when the zone is absent after the save. -/
inductive CheckErr where
  | invalidQr
  | alreadyCheckedIn
  | checkInRequired
  | alreadyCheckedOut
  | serverError
deriving DecidableEq, Repr

/-- POST bookings checkin handler: look up the active booking by qrCode,
reject a second check-in, set checkInTime. The source sets only
checkInTime; the status field is left as it was. -/
def checkIn (s : St) (qr : String) (now : Nat) : Except CheckErr Unit × St :=
  match findActiveByQr s qr with
  | none => (Except.error CheckErr.invalidQr, s)
  | some b =>
    if b.checkInTime.isSome then (Except.error CheckErr.alreadyCheckedIn, s)
    else
      let s1 := updateBooking s b.bid (fun b0 => { b0 with checkInTime := some now })
      (Except.ok (),
        { s1 with
          notifications := s1.notifications ++
            [{ userId := b.userId, title := "Check-in Successful",
               message := b.zoneName, ntype := "success" }],
          broadcasts := s1.broadcasts ++
            [Msg.notifMsg b.userId "Check-in Successful" b.zoneName "success"] })

/-- POST bookings checkout handler: look up the active booking by qrCode,
require a prior check-in, reject a second check-out, set checkOutTime and
the completed status, notify, and broadcast the freed-slot availability. -/
def checkOut (s : St) (qr : String) (now : Nat) : Except CheckErr Unit × St :=
  match findActiveByQr s qr with
  | none => (Except.error CheckErr.invalidQr, s)
  | some b =>
    if b.checkInTime.isNone then (Except.error CheckErr.checkInRequired, s)
    else if b.checkOutTime.isSome then (Except.error CheckErr.alreadyCheckedOut, s)
    else
      let s1 := updateBooking s b.bid
        (fun b0 => { b0 with checkOutTime := some now, status := Status.completed })
      let s2 := { s1 with notifications := s1.notifications ++
        [{ userId := b.userId, title := "Check-out Successful",
           message := b.zoneName, ntype := "success" }] }
      match getZoneAvailability s2 b.zoneId now with
      | none => (Except.error CheckErr.serverError, s2)
      | some avail =>
        (Except.ok (),
          { s2 with broadcasts := s2.broadcasts ++
            [Msg.zoneUpdate b.zoneId avail,
             Msg.notifMsg b.userId "Check-out Successful" b.zoneName "success"] })

/-- Error outcomes of the POST events handler. -/
inductive EventErr where
  | adminRequired
  | missingFields
  | invalidSlots
  | zoneMissing
  | notEnoughSlots
deriving DecidableEq, Repr

/-- Request body of POST events; allocatedSlots is the parsed integer. -/
structure EventReq where
  name : String
  date : Nat
  allocatedSlots : Int
  zoneId : Option Nat
deriving DecidableEq, Repr

/-- POST events handler. When a zoneId is given the capacity check compares
the requested allocation against totalSlots minus the future active
bookings of the zone, clamped at zero; existing event allocations are not
counted in the check. The broadcast after the commit recomputes with the
event sum included. Without a zoneId the event is saved with no check and
no broadcast. -/
def createEvent (s : St) (auth : AuthUser) (req : EventReq) (eid now : Nat) :
    Except EventErr Event × St :=
  if auth.role ≠ "admin" then (Except.error EventErr.adminRequired, s)
  else if req.name = "" then (Except.error EventErr.missingFields, s)
  else if req.allocatedSlots ≤ 0 then (Except.error EventErr.invalidSlots, s)
  else
    let slots := req.allocatedSlots.toNat
    match req.zoneId with
    | some zid =>
      match findZone s zid with
      | none => (Except.error EventErr.zoneMissing, s)
      | some z =>
        let act := countFutureActive s zid now
        let currentAvailable : Int := max 0 ((z.totalSlots : Int) - (act : Int))
        if currentAvailable < (slots : Int) then
          (Except.error EventErr.notEnoughSlots, s)
        else
          let ev : Event :=
            { eid := eid, name := req.name, zoneId := some zid,
              date := req.date, allocatedSlots := slots }
          let s1 := { s with events := s.events ++ [ev] }
          let newAvailable : Int :=
            max 0 ((z.totalSlots : Int) - (countFutureActive s1 zid now : Int)
              - (sumEventAllocFrom s1 zid now : Int))
          (Except.ok ev,
            { s1 with broadcasts := s1.broadcasts ++ [Msg.zoneUpdate zid newAvailable] })
    | none =>
      let ev : Event :=
        { eid := eid, name := req.name, zoneId := none,
          date := req.date, allocatedSlots := slots }
      (Except.ok ev, { s with events := s.events ++ [ev] })

/-- Filter of the expiry sweep query: status active or checked-in and
endTime already past. -/
def expireMatch (now : Nat) (b : Booking) : Bool :=
  decide ((b.status = Status.active ∨ b.status = Status.checkedIn) ∧ b.endTime < now)

/-- Violation list after the sweep processes one booking: no-checkout when
checked in without a check-out, unauthorized when never checked in. -/
def expireViolations (b : Booking) (now : Nat) : List Violation :=
  if b.checkInTime.isSome ∧ b.checkOutTime = none then
    b.violations ++ [{ vtype := "no-checkout", timestamp := now }]
  else if b.checkInTime = none then
    b.violations ++ [{ vtype := "unauthorized", timestamp := now }]
  else b.violations

/-- One iteration of the sweep loop body on the booking with id `bid`: mark
it expired with its violation, create the notification, and broadcast the
zone availability when the zone exists. -/
def expireOne (s : St) (bid now : Nat) : St :=
  match findBooking s bid with
  | none => s
  | some b =>
    let s1 := updateBooking s bid
      (fun b0 => { b0 with status := Status.expired, violations := expireViolations b0 now })
    let s2 := { s1 with notifications := s1.notifications ++
      [{ userId := b.userId, title := "Booking Expired",
         message := b.zoneName, ntype := "warning" }] }
    match getZoneAvailability s2 b.zoneId now with
    | none => s2
    | some avail =>
      { s2 with broadcasts := s2.broadcasts ++ [Msg.zoneUpdate b.zoneId avail] }

/-- The sweep loop over the ids of the bookings fetched by the query. -/
def runExpiry (now : Nat) : St → List Nat → St
  | s, [] => s
  | s, bid :: rest => runExpiry now (expireOne s bid now) rest

/-- expireOldBookings: fetch the overdue active or checked-in bookings,
then process each in turn. The loop of the source mutates each fetched
document; each iteration is modelled as an update of that document id. -/
def expireOldBookings (s : St) (now : Nat) : St :=
  runExpiry now s ((s.bookings.filter (expireMatch now)).map Booking.bid)

/-- One committed mutation of the system: any of the state-changing
operations the claims quantify over, at arbitrary inputs. -/
inductive Step : St → St → Prop where
  | book (s : St) (auth : AuthUser) (req : BookingReq) (bid : Nat) (qr : String) :
      Step s (createBooking s auth req bid qr).2
  | cancel (s : St) (auth : AuthUser) (bid now : Nat) :
      Step s (cancelBooking s auth bid now).2
  | checkin (s : St) (qr : String) (now : Nat) :
      Step s (checkIn s qr now).2
  | checkout (s : St) (qr : String) (now : Nat) :
      Step s (checkOut s qr now).2
  | event (s : St) (auth : AuthUser) (req : EventReq) (eid now : Nat) :
      Step s (createEvent s auth req eid now).2
  | expiry (s : St) (now : Nat) :
      Step s (expireOldBookings s now)

/-- Sum of allocatedSlots over every event of a zone, the event side of the
claimed system-wide invariant. -/
def sumEventAllocations (s : St) (zid : Nat) : Nat :=
  (s.events.filter (fun e => decide (e.zoneId = some zid))).foldl
    (fun acc e => acc + e.allocatedSlots) 0

/-- Capacity invariant the code does maintain: the active bookings of any
zone on any day never exceed that zone totalSlots. -/
def CapInv (s : St) : Prop :=
  ∀ z ∈ s.zones, ∀ d : Nat, countActiveBookings s z.zid d ≤ z.totalSlots

/-- Modelled from the spec: the availability formula of the specification
(totalSlots minus active-booking count of the day minus allocatedSlots of
events dated today or later, clamped at zero), stated from the words of the
spec for comparison against the handlers. -/
def specAvailable (s : St) (z : Zone) (now : Nat) : Int :=
  max 0 ((z.totalSlots : Int) - (countActiveBookings s z.zid (dayOf now) : Int)
    - (sumEventAllocFrom s z.zid (startOfDay now) : Int))

/-- Availability of a zone generalized over the counted day `d` and the
event cutoff instant `t0`; the zones listing value is this at the current
day and start of today. -/
def availableOn (s : St) (z : Zone) (d t0 : Nat) : Int :=
  max 0 ((z.totalSlots : Int) - (countActiveBookings s z.zid d : Int)
    - (sumEventAllocFrom s z.zid t0 : Int))

/-! Helper lemmas about the list operations the handlers are built from. -/

/-- The zones listing availability is availableOn at today. -/
theorem zoneListAvailable_eq_availableOn (s : St) (z : Zone) (now : Nat) :
    zoneListAvailable s z now = availableOn s z (dayOf now) (startOfDay now) := rfl

/-- find? over a map commutes when the mapped function does not change the
predicate. -/
theorem find?_map_invar {α : Type} (l : List α) (g : α → α) (p : α → Bool)
    (h : ∀ a, p (g a) = p a) : (l.map g).find? p = (l.find? p).map g := by
  induction l with
  | nil => rfl
  | cons a t ih =>
    by_cases hp : p a = true
    · simp [List.find?_cons, h a, hp]
    · simp only [Bool.not_eq_true] at hp
      simp [List.find?_cons, h a, hp, ih]

/-- countP over a map equals countP of the composed predicate. -/
theorem countP_map_eq {α : Type} (l : List α) (g : α → α) (p : α → Bool)
    (h : ∀ a ∈ l, p (g a) = p a) : (l.map g).countP p = l.countP p := by
  rw [List.countP_map]
  exact List.countP_congr (fun x hx => by rw [Function.comp_apply, h x hx])

/-- countP over a map never grows when the mapped function can only lose
the predicate. -/
theorem countP_map_le {α : Type} (l : List α) (g : α → α) (p : α → Bool)
    (h : ∀ a ∈ l, p (g a) = true → p a = true) : (l.map g).countP p ≤ l.countP p := by
  rw [List.countP_map]
  exact List.countP_mono_left (fun x hx => h x hx)

/-- The per-id update map leaves any element with another id unchanged, so
a find? keyed on another id is unchanged by it. -/
theorem find?_bid_update (l : List Booking) (bid qbid : Nat) (f : Booking → Booking)
    (hf : ∀ b, (f b).bid = b.bid) (hne : qbid ≠ bid) :
    (l.map (fun b => if b.bid = bid then f b else b)).find? (fun b => decide (b.bid = qbid)) =
      l.find? (fun b => decide (b.bid = qbid)) := by
  induction l with
  | nil => rfl
  | cons a t ih =>
    by_cases ha : a.bid = bid
    · have h1 : decide ((f a).bid = qbid) = false := by
        simp only [hf a, ha, decide_eq_false_iff_not]
        exact fun hc => hne hc.symm
      have h2 : decide (a.bid = qbid) = false := by
        simp only [ha, decide_eq_false_iff_not]
        exact fun hc => hne hc.symm
      simp only [List.map_cons, if_pos ha, List.find?, h1, h2]
      exact ih
    · simp only [List.map_cons, if_neg ha]
      by_cases hq : a.bid = qbid
      · simp [List.find?, hq]
      · have h2 : decide (a.bid = qbid) = false := by simp [hq]
        simp only [List.find?, h2]
        exact ih

/-- Finding the updated id after the per-id update map yields the updated
document, when ids are unique. -/
theorem find?_bid_update_self (l : List Booking) (b : Booking) (f : Booking → Booking)
    (hf : ∀ x, (f x).bid = x.bid) (hb : b ∈ l) (hnd : (l.map Booking.bid).Nodup) :
    (l.map (fun x => if x.bid = b.bid then f x else x)).find? (fun x => decide (x.bid = b.bid)) =
      some (f b) := by
  induction l with
  | nil => cases hb
  | cons a t ih =>
    rw [List.map_cons] at hnd
    have hcons := List.nodup_cons.mp hnd
    by_cases ha : a.bid = b.bid
    · have hab : a = b := by
        cases List.mem_cons.mp hb with
        | inl h => exact h.symm
        | inr h => exact absurd (ha ▸ List.mem_map_of_mem Booking.bid h) hcons.1
      simp only [List.map_cons, if_pos ha]
      rw [List.find?_cons_of_pos _ (by simp [hf a, ha]), hab]
    · have hbt : b ∈ t := by
        cases List.mem_cons.mp hb with
        | inl h =>
          subst h
          exact absurd rfl ha
        | inr h => exact h
      simp only [List.map_cons, if_neg ha]
      rw [List.find?_cons_of_neg _ (by simp [ha])]
      exact ih hbt hcons.2

/-- When the updated document loses the counted predicate and held it
before, the count over the per-id update map drops by exactly one, given
unique ids. -/
theorem countP_map_update_toggle (l : List Booking) (b : Booking) (f : Booking → Booking)
    (p : Booking → Bool) (hb : b ∈ l) (hnd : (l.map Booking.bid).Nodup)
    (hpb : p b = true) (hpf : p (f b) = false) :
    (l.map (fun x => if x.bid = b.bid then f x else x)).countP p + 1 = l.countP p := by
  induction l with
  | nil => cases hb
  | cons a t ih =>
    rw [List.map_cons] at hnd
    have hcons := List.nodup_cons.mp hnd
    by_cases ha : a.bid = b.bid
    · have hab : a = b := by
        cases List.mem_cons.mp hb with
        | inl h => exact h.symm
        | inr h => exact absurd (ha ▸ List.mem_map_of_mem Booking.bid h) hcons.1
      subst hab
      have ht : t.map (fun x => if x.bid = a.bid then f x else x) = t := by
        conv_rhs => rw [← List.map_id t]
        apply List.map_congr_left
        intro x hx
        simp only [id_eq]
        apply if_neg
        intro hc
        exact hcons.1 (hc ▸ List.mem_map_of_mem Booking.bid hx)
      rw [List.map_cons, if_pos rfl, List.countP_cons, List.countP_cons, ht, hpf, hpb]
      simp
    · have hbt : b ∈ t := by
        cases List.mem_cons.mp hb with
        | inl h =>
          subst h
          exact absurd rfl ha
        | inr h => exact h
      rw [List.map_cons, if_neg ha, List.countP_cons, List.countP_cons]
      have := ih hbt hcons.2
      omega

/-- Case analysis of booking creation: either it fails leaving the state
unchanged, or every guard passed and the committed state is the input plus
the new booking, its confirmation notification, and the two broadcasts. -/
theorem createBooking_cases (s : St) (auth : AuthUser) (req : BookingReq) (bid : Nat)
    (qr : String) :
    (∃ e : BookErr, createBooking s auth req bid qr = (Except.error e, s))
    ∨ (auth.id = req.userId
      ∧ ∃ z : Zone, findZone s req.zoneId = some z
        ∧ countActiveBookings s req.zoneId (dayOf req.date) < z.totalSlots
        ∧ createBooking s auth req bid qr =
          (Except.ok (newBooking req bid qr),
            { s with
              bookings := s.bookings ++ [newBooking req bid qr],
              notifications := s.notifications ++ [confirmNotif req],
              broadcasts := s.broadcasts ++
                [Msg.zoneUpdate req.zoneId
                  (max 0 ((z.totalSlots : Int) -
                    ((countActiveBookings s req.zoneId (dayOf req.date) : Int) + 1))),
                 Msg.bookingCreated req.userId req.zoneName] })) := by
  unfold createBooking
  split
  · exact Or.inl ⟨_, rfl⟩
  next hown =>
    split
    · exact Or.inl ⟨_, rfl⟩
    next zone hsome =>
      dsimp only
      split
      · exact Or.inl ⟨_, rfl⟩
      · split
        · exact Or.inl ⟨_, rfl⟩
        · split
          · exact Or.inl ⟨_, rfl⟩
          next hcap =>
            exact Or.inr ⟨not_not.mp (by simpa using hown), zone, hsome,
              not_le.mp hcap, rfl⟩

/-- The per-id update map preserves the list of document ids when the
update itself preserves the id. -/
theorem map_bid_update (l : List Booking) (bid0 : Nat) (f : Booking → Booking)
    (hf : ∀ x, (f x).bid = x.bid) :
    ((l.map (fun x => if x.bid = bid0 then f x else x)).map Booking.bid) =
      l.map Booking.bid := by
  rw [List.map_map]
  apply List.map_congr_left
  intro x hx
  simp only [Function.comp_apply]
  by_cases hxb : x.bid = bid0
  · rw [if_pos hxb, hf x]
  · rw [if_neg hxb]

/-- The per-id update map is the identity when no element carries the id. -/
theorem map_update_id (l : List Booking) (bid : Nat) (f : Booking → Booking)
    (h : ∀ x ∈ l, x.bid ≠ bid) :
    l.map (fun x => if x.bid = bid then f x else x) = l := by
  conv_rhs => rw [← List.map_id l]
  apply List.map_congr_left
  intro x hx
  simp only [id_eq]
  exact if_neg (h x hx)

/-- Success path of the cancel handler: with the booking found, permission
granted, a non-cancelled status and an existing zone, the handler succeeds
and the committed bookings are the input ones with that document flipped to
cancelled; zones and events are untouched. -/
theorem cancelBooking_ok (s : St) (auth : AuthUser) (bid now : Nat) (b : Booking) (z : Zone)
    (hfind : findBooking s bid = some b)
    (hperm : b.userId = auth.id ∨ auth.role = "admin")
    (hnc : ¬ b.status = Status.cancelled)
    (hz : findZone s b.zoneId = some z) :
    (cancelBooking s auth bid now).1 = Except.ok ()
    ∧ (cancelBooking s auth bid now).2.bookings =
        s.bookings.map (fun b0 => if b0.bid = bid then
          { b0 with status := Status.cancelled } else b0)
    ∧ (cancelBooking s auth bid now).2.zones = s.zones
    ∧ (cancelBooking s auth bid now).2.events = s.events := by
  have hnp : ¬ (b.userId ≠ auth.id ∧ auth.role ≠ "admin") := by
    intro hc
    cases hperm with
    | inl h => exact hc.1 h
    | inr h => exact hc.2 h
  unfold cancelBooking
  split
  next hnone =>
    rw [hfind] at hnone
    cases hnone
  next b0 hsome =>
    rw [hfind] at hsome
    cases hsome
    rw [if_neg hnp, if_neg hnc]
    dsimp only
    split
    next hga =>
      exfalso
      simp only [getZoneAvailability, findZone, updateBooking] at hga
      unfold findZone at hz
      rw [Option.map_eq_none'] at hga
      rw [hz] at hga
      cases hga
    next avail hga =>
      exact ⟨rfl, rfl, rfl, rfl⟩

/-- Success path of the check-in handler: with an active booking found by
qrCode and no prior check-in, it succeeds and the committed bookings are
the input ones with checkInTime set on that document; zones and events are
untouched. -/
theorem checkIn_ok (s : St) (qr : String) (now : Nat) (b : Booking)
    (hfind : findActiveByQr s qr = some b)
    (hci : b.checkInTime = none) :
    (checkIn s qr now).1 = Except.ok ()
    ∧ (checkIn s qr now).2.bookings =
        s.bookings.map (fun x => if x.bid = b.bid then
          { x with checkInTime := some now } else x)
    ∧ (checkIn s qr now).2.zones = s.zones
    ∧ (checkIn s qr now).2.events = s.events := by
  unfold checkIn
  split
  next hnone =>
    rw [hfind] at hnone
    cases hnone
  next b0 hsome =>
    rw [hfind] at hsome
    cases hsome
    have hns : ¬ b.checkInTime.isSome = true := by
      rw [hci]
      exact fun hc => by cases hc
    rw [if_neg hns]
    exact ⟨rfl, rfl, rfl, rfl⟩

/-- Success path of the check-out handler: with an active booking found by
qrCode, a prior check-in, no prior check-out and an existing zone, it
succeeds and the committed bookings are the input ones with checkOutTime
set and the completed status on that document; zones and events are
untouched. -/
theorem checkOut_ok (s : St) (qr : String) (now : Nat) (b : Booking) (z : Zone)
    (hfind : findActiveByQr s qr = some b)
    (hci : b.checkInTime.isSome = true)
    (hco : b.checkOutTime = none)
    (hz : findZone s b.zoneId = some z) :
    (checkOut s qr now).1 = Except.ok ()
    ∧ (checkOut s qr now).2.bookings =
        s.bookings.map (fun x => if x.bid = b.bid then
          { x with checkOutTime := some now, status := Status.completed } else x)
    ∧ (checkOut s qr now).2.zones = s.zones
    ∧ (checkOut s qr now).2.events = s.events := by
  unfold checkOut
  split
  next hnone =>
    rw [hfind] at hnone
    cases hnone
  next b0 hsome =>
    rw [hfind] at hsome
    cases hsome
    have hn1 : ¬ b.checkInTime.isNone = true := by
      cases h : b.checkInTime with
      | none => rw [h] at hci; cases hci
      | some t => simp [Option.isNone]
    have hn2 : ¬ b.checkOutTime.isSome = true := by
      rw [hco]
      exact fun hc => by cases hc
    rw [if_neg hn1, if_neg hn2]
    dsimp only
    split
    next hga =>
      exfalso
      simp only [getZoneAvailability, findZone, updateBooking] at hga
      unfold findZone at hz
      rw [Option.map_eq_none'] at hga
      rw [hz] at hga
      cases hga
    next avail hga =>
      exact ⟨rfl, rfl, rfl, rfl⟩

/-! Claim C10: ownership check precedes every write. -/

/-- Claim C10: when the authenticated id differs from the userId of the
request body, booking creation returns the unauthorized failure with the
state unchanged, so no booking, notification or broadcast is produced. -/
theorem c10_owner_mismatch_writes_nothing (s : St) (auth : AuthUser) (req : BookingReq)
    (bid : Nat) (qr : String) (h : auth.id ≠ req.userId) :
    createBooking s auth req bid qr = (Except.error BookErr.unauthorized, s) := by
  unfold createBooking
  simp [h]

/-- Witness for C10 at a concrete state and request. -/
theorem c10_witness :
    createBooking
      { zones := [{ zid := 0, name := "A", ztype := "general", totalSlots := 2 }],
        bookings := [], events := [], notifications := [], broadcasts := [] }
      { id := 2, role := "student" }
      { userId := 1, zoneId := 0, zoneName := "A", date := 5, duration := 2,
        vehicleNumber := "KA01" } 0 "QR1" =
      (Except.error BookErr.unauthorized,
        { zones := [{ zid := 0, name := "A", ztype := "general", totalSlots := 2 }],
          bookings := [], events := [], notifications := [], broadcasts := [] }) :=
  c10_owner_mismatch_writes_nothing _ _ _ _ _ (by decide)

/-! Claim C2: the capacity check is recomputed on the transaction state and
gates the insert exactly at count at-or-above totalSlots. -/

/-- Claim C2: when the ownership, zone, access and duplicate guards pass,
booking creation fails with NoSlotsAvailable exactly when the active count
of the requested zone and day, computed on the transaction state, is at
least the zone totalSlots; on that failure nothing is written, and below
the bound a booking is inserted. -/
theorem c2_noslots_iff_capacity (s : St) (auth : AuthUser) (req : BookingReq)
    (bid : Nat) (qr : String) (z : Zone)
    (hown : auth.id = req.userId)
    (hz : findZone s req.zoneId = some z)
    (hacc : (accessRules auth.role).contains z.ztype = true)
    (hdup : hasDuplicateBooking s req.userId req.zoneId (dayOf req.date) = false) :
    ((createBooking s auth req bid qr).1 = Except.error BookErr.noSlotsAvailable ↔
      z.totalSlots ≤ countActiveBookings s req.zoneId (dayOf req.date))
    ∧ ((createBooking s auth req bid qr).1 = Except.error BookErr.noSlotsAvailable →
      (createBooking s auth req bid qr).2 = s)
    ∧ (countActiveBookings s req.zoneId (dayOf req.date) < z.totalSlots →
      ∃ b : Booking, (createBooking s auth req bid qr).1 = Except.ok b ∧
        (createBooking s auth req bid qr).2.bookings = s.bookings ++ [b]) := by
  unfold createBooking
  split
  next h => exact absurd hown (by simpa using h)
  next h =>
    split
    next hnone =>
      rw [hz] at hnone
      cases hnone
    next zone hsome =>
      rw [hz] at hsome
      cases hsome
      dsimp only
      split
      next h2 => exact absurd hacc (by simpa using h2)
      next h2 =>
        split
        next h3 =>
          rw [hdup] at h3
          cases h3
        next h3 =>
          by_cases hcap : z.totalSlots ≤ countActiveBookings s req.zoneId (dayOf req.date)
          · rw [if_pos hcap]
            exact ⟨⟨fun _ => hcap, fun _ => rfl⟩, fun _ => rfl,
              fun hlt => absurd hcap (not_le.mpr hlt)⟩
          · rw [if_neg hcap]
            exact ⟨⟨fun h => (by cases h), fun h => absurd h hcap⟩,
              fun h => (by cases h), fun _ => ⟨_, rfl, rfl⟩⟩

/-- Witness for C2: a zone with one slot already holding one active booking
for the day makes the reserve fail, and with none it succeeds. -/
theorem c2_witness :
    (createBooking
      { zones := [{ zid := 0, name := "A", ztype := "general", totalSlots := 1 }],
        bookings := [
          { bid := 3, userId := 7, zoneId := 0, zoneName := "A", date := 5,
            startTime := 8, endTime := 10, duration := 2, vehicleNumber := "X",
            qrCode := "QR3", status := Status.active, checkInTime := none,
            checkOutTime := none, violations := [] }],
        events := [], notifications := [], broadcasts := [] }
      { id := 1, role := "student" }
      { userId := 1, zoneId := 0, zoneName := "A", date := 6, duration := 2,
        vehicleNumber := "KA01" } 9 "QR9").1 = Except.error BookErr.noSlotsAvailable := by
  have h := c2_noslots_iff_capacity
    { zones := [{ zid := 0, name := "A", ztype := "general", totalSlots := 1 }],
      bookings := [
        { bid := 3, userId := 7, zoneId := 0, zoneName := "A", date := 5,
          startTime := 8, endTime := 10, duration := 2, vehicleNumber := "X",
          qrCode := "QR3", status := Status.active, checkInTime := none,
          checkOutTime := none, violations := [] }],
      events := [], notifications := [], broadcasts := [] }
    { id := 1, role := "student" }
    { userId := 1, zoneId := 0, zoneName := "A", date := 6, duration := 2,
      vehicleNumber := "KA01" } 9 "QR9"
    { zid := 0, name := "A", ztype := "general", totalSlots := 1 }
    (by decide) (by decide) (by decide) (by decide)
  exact h.1.mpr (by decide)

/-! Claim C3: transactional atomicity of the reserve operation. -/

/-- Claim C3: booking creation is atomic. On any failure the state is the
input state, so no booking, notification or broadcast of an aborted
transaction is observable; on success the booking and its confirmation
notification are committed together and the zone_update and
booking_created broadcasts are appended only then. -/
theorem c3_reserve_atomic (s : St) (auth : AuthUser) (req : BookingReq)
    (bid : Nat) (qr : String) :
    (∀ e : BookErr, (createBooking s auth req bid qr).1 = Except.error e →
      (createBooking s auth req bid qr).2 = s)
    ∧ (∀ b : Booking, (createBooking s auth req bid qr).1 = Except.ok b →
      (createBooking s auth req bid qr).2.bookings = s.bookings ++ [b]
      ∧ (createBooking s auth req bid qr).2.notifications = s.notifications ++
          [{ userId := req.userId, title := "Booking Confirmed",
             message := req.zoneName, ntype := "success" }]
      ∧ ∃ a : Int, (createBooking s auth req bid qr).2.broadcasts = s.broadcasts ++
          [Msg.zoneUpdate req.zoneId a, Msg.bookingCreated req.userId req.zoneName]) := by
  unfold createBooking
  split
  · exact ⟨fun e h => rfl, fun b h => by cases h⟩
  · split
    · exact ⟨fun e h => rfl, fun b h => by cases h⟩
    · dsimp only
      split
      · exact ⟨fun e h => rfl, fun b h => by cases h⟩
      · split
        · exact ⟨fun e h => rfl, fun b h => by cases h⟩
        · split
          · exact ⟨fun e h => rfl, fun b h => by cases h⟩
          · refine ⟨fun e h => (by cases h), fun b h => ?_⟩
            cases h
            exact ⟨rfl, rfl, _, rfl⟩

/-- Witness for C3: the success shape at a concrete state, and the abort
shape at a concrete failing request. -/
theorem c3_witness :
    ((createBooking
      { zones := [{ zid := 0, name := "A", ztype := "general", totalSlots := 2 }],
        bookings := [], events := [], notifications := [], broadcasts := [] }
      { id := 1, role := "student" }
      { userId := 1, zoneId := 0, zoneName := "A", date := 5, duration := 2,
        vehicleNumber := "KA01" } 0 "QR1").2.notifications =
      [{ userId := 1, title := "Booking Confirmed", message := "A", ntype := "success" }]) := by
  have h := (c3_reserve_atomic
    { zones := [{ zid := 0, name := "A", ztype := "general", totalSlots := 2 }],
      bookings := [], events := [], notifications := [], broadcasts := [] }
    { id := 1, role := "student" }
    { userId := 1, zoneId := 0, zoneName := "A", date := 5, duration := 2,
      vehicleNumber := "KA01" } 0 "QR1").2
    { bid := 0, userId := 1, zoneId := 0, zoneName := "A", date := 5,
      startTime := 8, endTime := 10, duration := 2, vehicleNumber := "KA01",
      qrCode := "QR1", status := Status.active, checkInTime := none,
      checkOutTime := none, violations := [] } rfl
  simpa using h.2.1

/-! Claim C8: the availability formula reported to clients. -/

/-- Claim C8 counterexample: the single-zone availability endpoint does not
subtract event allocations. A zone of five slots with an event holding two
future slots is reported with five available by the endpoint while the
claimed formula yields three. -/
theorem c8_counterexample :
    zoneAvailabilityEndpoint
      { zones := [{ zid := 0, name := "A", ztype := "general", totalSlots := 5 }],
        bookings := [],
        events := [{ eid := 0, name := "E", zoneId := some 0, date := 100, allocatedSlots := 2 }],
        notifications := [], broadcasts := [] } 0 5 = some 5
    ∧ specAvailable
      { zones := [{ zid := 0, name := "A", ztype := "general", totalSlots := 5 }],
        bookings := [],
        events := [{ eid := 0, name := "E", zoneId := some 0, date := 100, allocatedSlots := 2 }],
        notifications := [], broadcasts := [] }
      { zid := 0, name := "A", ztype := "general", totalSlots := 5 } 5 = 3
    ∧ zoneAvailabilityEndpoint
      { zones := [{ zid := 0, name := "A", ztype := "general", totalSlots := 5 }],
        bookings := [],
        events := [{ eid := 0, name := "E", zoneId := some 0, date := 100, allocatedSlots := 2 }],
        notifications := [], broadcasts := [] } 0 5 ≠
      some (specAvailable
        { zones := [{ zid := 0, name := "A", ztype := "general", totalSlots := 5 }],
          bookings := [],
          events := [{ eid := 0, name := "E", zoneId := some 0, date := 100, allocatedSlots := 2 }],
          notifications := [], broadcasts := [] }
        { zid := 0, name := "A", ztype := "general", totalSlots := 5 } 5) := by
  refine ⟨rfl, rfl, ?_⟩
  intro h
  cases h

/-- Claim C8 amended: the zones listing reports exactly the claimed formula
(active bookings of the day plus allocatedSlots of events dated today or
later, subtracted and clamped at zero, hence never negative), while the
single-zone availability endpoint omits the event term and reports only
totalSlots minus the active count of the queried day, also clamped at
zero. -/
theorem c8_amended (s : St) (z : Zone) (now qdate : Nat)
    (hz : findZone s z.zid = some z) :
    zoneListAvailable s z now = specAvailable s z now
    ∧ 0 ≤ zoneListAvailable s z now
    ∧ zoneAvailabilityEndpoint s z.zid qdate =
        some (max 0 ((z.totalSlots : Int) - (countActiveBookings s z.zid (dayOf qdate) : Int)))
    ∧ ∀ a : Int, zoneAvailabilityEndpoint s z.zid qdate = some a → 0 ≤ a := by
  refine ⟨rfl, ?_, ?_, ?_⟩
  · unfold zoneListAvailable
    exact le_max_left 0 _
  · unfold zoneAvailabilityEndpoint
    rw [hz]
    rfl
  · intro a ha
    unfold zoneAvailabilityEndpoint at ha
    rw [hz] at ha
    simp only [Option.map_some'] at ha
    cases ha
    exact le_max_left 0 _

/-- Witness for C8 amended at a concrete state with one event. -/
theorem c8_witness :
    0 ≤ zoneListAvailable
      { zones := [{ zid := 0, name := "A", ztype := "general", totalSlots := 5 }],
        bookings := [],
        events := [{ eid := 0, name := "E", zoneId := some 0, date := 100, allocatedSlots := 2 }],
        notifications := [], broadcasts := [] }
      { zid := 0, name := "A", ztype := "general", totalSlots := 5 } 5 :=
  (c8_amended
    { zones := [{ zid := 0, name := "A", ztype := "general", totalSlots := 5 }],
      bookings := [],
      events := [{ eid := 0, name := "E", zoneId := some 0, date := 100, allocatedSlots := 2 }],
      notifications := [], broadcasts := [] }
    { zid := 0, name := "A", ztype := "general", totalSlots := 5 } 5 3 (by decide)).2.1

/-! Claim C5: cancelling a terminal booking. -/

/-- Claim C5 counterexample: cancelling a booking whose status is already
terminal does not always fail. A completed booking is silently cancelled:
the handler returns success and flips the status to cancelled, because the
status guard rejects only the cancelled status. -/
theorem c5_counterexample :
    (cancelBooking
      { zones := [{ zid := 0, name := "A", ztype := "general", totalSlots := 2 }],
        bookings := [
          { bid := 7, userId := 1, zoneId := 0, zoneName := "A", date := 5,
            startTime := 8, endTime := 10, duration := 2, vehicleNumber := "K",
            qrCode := "QR7", status := Status.completed, checkInTime := some 9,
            checkOutTime := some 10, violations := [] }],
        events := [], notifications := [], broadcasts := [] }
      { id := 1, role := "student" } 7 5).1 = Except.ok ()
    ∧ (findBooking (cancelBooking
      { zones := [{ zid := 0, name := "A", ztype := "general", totalSlots := 2 }],
        bookings := [
          { bid := 7, userId := 1, zoneId := 0, zoneName := "A", date := 5,
            startTime := 8, endTime := 10, duration := 2, vehicleNumber := "K",
            qrCode := "QR7", status := Status.completed, checkInTime := some 9,
            checkOutTime := some 10, violations := [] }],
        events := [], notifications := [], broadcasts := [] }
      { id := 1, role := "student" } 7 5).2 7).map Booking.status =
      some Status.cancelled := by
  exact ⟨rfl, rfl⟩

/-- Claim C5 amended: a cancel by the owner or an admin fails only when the
status is already cancelled; on a completed or expired booking it silently
succeeds, but it does not free a slot a second time: the active-booking
count behind the derived availability is unchanged for every zone and
day. -/
theorem c5_amended (s : St) (auth : AuthUser) (bid now : Nat) (b : Booking) (z : Zone)
    (hfind : findBooking s bid = some b)
    (hz : findZone s b.zoneId = some z)
    (hnd : (s.bookings.map Booking.bid).Nodup)
    (hperm : b.userId = auth.id ∨ auth.role = "admin") :
    (b.status = Status.cancelled →
      cancelBooking s auth bid now = (Except.error CancelErr.alreadyCancelled, s))
    ∧ ((b.status = Status.completed ∨ b.status = Status.expired) →
      (cancelBooking s auth bid now).1 = Except.ok ()
      ∧ ∀ zid d : Nat,
          countActiveBookings (cancelBooking s auth bid now).2 zid d =
            countActiveBookings s zid d) := by
  have hnp : ¬ (b.userId ≠ auth.id ∧ auth.role ≠ "admin") := by
    intro hc
    cases hperm with
    | inl h => exact hc.1 h
    | inr h => exact hc.2 h
  have hbbid : b.bid = bid := by simpa using List.find?_some hfind
  have hbmem : b ∈ s.bookings := List.mem_of_find?_eq_some hfind
  have hcount : ∀ hstatus : b.status = Status.completed ∨ b.status = Status.expired,
      ∀ zid d : Nat,
      (s.bookings.map (fun b0 => if b0.bid = bid then
        { b0 with status := Status.cancelled } else b0)).countP (activeOn zid d) =
        s.bookings.countP (activeOn zid d) := by
    intro hstatus zid d
    apply countP_map_eq
    intro x hx
    by_cases hxb : x.bid = bid
    · have hxeq : x = b :=
        List.inj_on_of_nodup_map hnd hx hbmem (by rw [hxb, hbbid])
      subst hxeq
      rw [if_pos hxb]
      cases hstatus with
      | inl h => simp [activeOn, h]
      | inr h => simp [activeOn, h]
    · rw [if_neg hxb]
  unfold cancelBooking
  split
  next hnone =>
    rw [hfind] at hnone
    cases hnone
  next b0 hsome =>
    rw [hfind] at hsome
    cases hsome
    rw [if_neg hnp]
    constructor
    · intro hst
      rw [if_pos hst]
    · intro hst
      have hnc : ¬ b.status = Status.cancelled := by
        cases hst with
        | inl h => rw [h]; exact fun hc => by cases hc
        | inr h => rw [h]; exact fun hc => by cases hc
      rw [if_neg hnc]
      dsimp only
      split
      next hga =>
        exfalso
        simp only [getZoneAvailability, findZone, updateBooking] at hga
        unfold findZone at hz
        rw [Option.map_eq_none'] at hga
        rw [hz] at hga
        cases hga
      next avail hga =>
        exact ⟨rfl, fun zid d => hcount hst zid d⟩

/-- Witness for C5 amended: the silent-success branch evaluated on the
concrete completed booking. -/
theorem c5_witness :
    (cancelBooking
      { zones := [{ zid := 0, name := "A", ztype := "general", totalSlots := 2 }],
        bookings := [
          { bid := 7, userId := 1, zoneId := 0, zoneName := "A", date := 5,
            startTime := 8, endTime := 10, duration := 2, vehicleNumber := "K",
            qrCode := "QR7", status := Status.expired, checkInTime := none,
            checkOutTime := none, violations := [] }],
        events := [], notifications := [], broadcasts := [] }
      { id := 1, role := "student" } 7 5).1 = Except.ok ()
    ∧ ∀ zid d : Nat,
      countActiveBookings (cancelBooking
        { zones := [{ zid := 0, name := "A", ztype := "general", totalSlots := 2 }],
          bookings := [
            { bid := 7, userId := 1, zoneId := 0, zoneName := "A", date := 5,
              startTime := 8, endTime := 10, duration := 2, vehicleNumber := "K",
              qrCode := "QR7", status := Status.expired, checkInTime := none,
              checkOutTime := none, violations := [] }],
          events := [], notifications := [], broadcasts := [] }
        { id := 1, role := "student" } 7 5).2 zid d =
      countActiveBookings
        { zones := [{ zid := 0, name := "A", ztype := "general", totalSlots := 2 }],
          bookings := [
            { bid := 7, userId := 1, zoneId := 0, zoneName := "A", date := 5,
              startTime := 8, endTime := 10, duration := 2, vehicleNumber := "K",
              qrCode := "QR7", status := Status.expired, checkInTime := none,
              checkOutTime := none, violations := [] }],
          events := [], notifications := [], broadcasts := [] } zid d :=
  (c5_amended
    { zones := [{ zid := 0, name := "A", ztype := "general", totalSlots := 2 }],
      bookings := [
        { bid := 7, userId := 1, zoneId := 0, zoneName := "A", date := 5,
          startTime := 8, endTime := 10, duration := 2, vehicleNumber := "K",
          qrCode := "QR7", status := Status.expired, checkInTime := none,
          checkOutTime := none, violations := [] }],
      events := [], notifications := [], broadcasts := [] }
    { id := 1, role := "student" } 7 5
    { bid := 7, userId := 1, zoneId := 0, zoneName := "A", date := 5,
      startTime := 8, endTime := 10, duration := 2, vehicleNumber := "K",
      qrCode := "QR7", status := Status.expired, checkInTime := none,
      checkOutTime := none, violations := [] }
    { zid := 0, name := "A", ztype := "general", totalSlots := 2 }
    rfl rfl (by decide) (Or.inl rfl)).2 (Or.inr rfl)

/-! Claim C6: the check-in transition. -/

/-- Claim C6 counterexample: a successful check-in does not transition the
booking to checked-in. On a concrete active booking the handler succeeds,
sets checkInTime, and leaves the status active. -/
theorem c6_counterexample :
    (checkIn
      { zones := [{ zid := 0, name := "A", ztype := "general", totalSlots := 2 }],
        bookings := [
          { bid := 8, userId := 1, zoneId := 0, zoneName := "A", date := 5,
            startTime := 8, endTime := 10, duration := 2, vehicleNumber := "K",
            qrCode := "QR8", status := Status.active, checkInTime := none,
            checkOutTime := none, violations := [] }],
        events := [], notifications := [], broadcasts := [] } "QR8" 9).1 = Except.ok ()
    ∧ (findBooking (checkIn
      { zones := [{ zid := 0, name := "A", ztype := "general", totalSlots := 2 }],
        bookings := [
          { bid := 8, userId := 1, zoneId := 0, zoneName := "A", date := 5,
            startTime := 8, endTime := 10, duration := 2, vehicleNumber := "K",
            qrCode := "QR8", status := Status.active, checkInTime := none,
            checkOutTime := none, violations := [] }],
        events := [], notifications := [], broadcasts := [] } "QR8" 9).2 8).map
      Booking.status = some Status.active := by
  exact ⟨rfl, rfl⟩

/-- Claim C6 amended: check-in succeeds only on a booking found by qrCode
with status active and no prior checkInTime; it fails otherwise; on success
it sets checkInTime and leaves the status unchanged at active (the source
never writes a checked-in status). -/
theorem c6_amended (s : St) (qr : String) (now : Nat) (b : Booking)
    (hnd : (s.bookings.map Booking.bid).Nodup)
    (hfind : findActiveByQr s qr = some b) :
    b.status = Status.active
    ∧ (b.checkInTime.isSome = true →
        checkIn s qr now = (Except.error CheckErr.alreadyCheckedIn, s))
    ∧ (b.checkInTime = none →
        (checkIn s qr now).1 = Except.ok ()
        ∧ findBooking (checkIn s qr now).2 b.bid =
            some { b with checkInTime := some now }) := by
  have hact : b.status = Status.active := by
    have := List.find?_some hfind
    simp only [decide_eq_true_eq] at this
    exact this.2
  have hbmem : b ∈ s.bookings := List.mem_of_find?_eq_some hfind
  refine ⟨hact, ?_, ?_⟩
  · intro hci
    unfold checkIn
    split
    next hnone =>
      rw [hfind] at hnone
      cases hnone
    next b0 hsome =>
      rw [hfind] at hsome
      cases hsome
      rw [if_pos hci]
  · intro hci
    unfold checkIn
    split
    next hnone =>
      rw [hfind] at hnone
      cases hnone
    next b0 hsome =>
      rw [hfind] at hsome
      cases hsome
      have hns : ¬ b.checkInTime.isSome = true := by
        rw [hci]
        exact fun hc => by cases hc
      rw [if_neg hns]
      refine ⟨rfl, ?_⟩
      unfold findBooking updateBooking
      exact find?_bid_update_self s.bookings b
        (fun b0 => { b0 with checkInTime := some now }) (fun _ => rfl) hbmem hnd

/-- Witness for C6 amended on the concrete active booking. -/
theorem c6_witness :
    ((checkIn
      { zones := [{ zid := 0, name := "A", ztype := "general", totalSlots := 2 }],
        bookings := [
          { bid := 8, userId := 1, zoneId := 0, zoneName := "A", date := 5,
            startTime := 8, endTime := 10, duration := 2, vehicleNumber := "K",
            qrCode := "QR8", status := Status.active, checkInTime := none,
            checkOutTime := none, violations := [] }],
        events := [], notifications := [], broadcasts := [] } "QR8" 9).1 = Except.ok ()
    ∧ findBooking (checkIn
      { zones := [{ zid := 0, name := "A", ztype := "general", totalSlots := 2 }],
        bookings := [
          { bid := 8, userId := 1, zoneId := 0, zoneName := "A", date := 5,
            startTime := 8, endTime := 10, duration := 2, vehicleNumber := "K",
            qrCode := "QR8", status := Status.active, checkInTime := none,
            checkOutTime := none, violations := [] }],
        events := [], notifications := [], broadcasts := [] } "QR8" 9).2 8 =
      some { bid := 8, userId := 1, zoneId := 0, zoneName := "A", date := 5,
             startTime := 8, endTime := 10, duration := 2, vehicleNumber := "K",
             qrCode := "QR8", status := Status.active, checkInTime := some 9,
             checkOutTime := none, violations := [] }) :=
  (c6_amended
    { zones := [{ zid := 0, name := "A", ztype := "general", totalSlots := 2 }],
      bookings := [
        { bid := 8, userId := 1, zoneId := 0, zoneName := "A", date := 5,
          startTime := 8, endTime := 10, duration := 2, vehicleNumber := "K",
          qrCode := "QR8", status := Status.active, checkInTime := none,
          checkOutTime := none, violations := [] }],
      events := [], notifications := [], broadcasts := [] } "QR8" 9
    { bid := 8, userId := 1, zoneId := 0, zoneName := "A", date := 5,
      startTime := 8, endTime := 10, duration := 2, vehicleNumber := "K",
      qrCode := "QR8", status := Status.active, checkInTime := none,
      checkOutTime := none, violations := [] }
    (by decide) rfl).2.2 rfl

/-! Claim C4: the reserve and cancel round trip on the derived
availability. -/

/-- Claim C4 counterexample: with an event carve-out the listed
availability does not drop by one on a successful reserve. A zone of two
slots with one event slot and one active booking lists zero available, yet
a new reserve succeeds (the booking capacity check ignores events) and the
listed availability stays zero instead of dropping to minus one. -/
theorem c4_counterexample :
    (createBooking
      { zones := [{ zid := 0, name := "A", ztype := "general", totalSlots := 2 }],
        bookings := [
          { bid := 9, userId := 3, zoneId := 0, zoneName := "A", date := 5,
            startTime := 8, endTime := 10, duration := 2, vehicleNumber := "K",
            qrCode := "QR9", status := Status.active, checkInTime := none,
            checkOutTime := none, violations := [] }],
        events := [{ eid := 0, name := "E", zoneId := some 0, date := 100, allocatedSlots := 1 }],
        notifications := [], broadcasts := [] }
      { id := 1, role := "student" }
      { userId := 1, zoneId := 0, zoneName := "A", date := 5, duration := 2,
        vehicleNumber := "KA01" } 10 "QRX").1 = Except.ok (newBooking
      { userId := 1, zoneId := 0, zoneName := "A", date := 5, duration := 2,
        vehicleNumber := "KA01" } 10 "QRX")
    ∧ zoneListAvailable
      { zones := [{ zid := 0, name := "A", ztype := "general", totalSlots := 2 }],
        bookings := [
          { bid := 9, userId := 3, zoneId := 0, zoneName := "A", date := 5,
            startTime := 8, endTime := 10, duration := 2, vehicleNumber := "K",
            qrCode := "QR9", status := Status.active, checkInTime := none,
            checkOutTime := none, violations := [] }],
        events := [{ eid := 0, name := "E", zoneId := some 0, date := 100, allocatedSlots := 1 }],
        notifications := [], broadcasts := [] }
      { zid := 0, name := "A", ztype := "general", totalSlots := 2 } 5 = 0
    ∧ zoneListAvailable (createBooking
      { zones := [{ zid := 0, name := "A", ztype := "general", totalSlots := 2 }],
        bookings := [
          { bid := 9, userId := 3, zoneId := 0, zoneName := "A", date := 5,
            startTime := 8, endTime := 10, duration := 2, vehicleNumber := "K",
            qrCode := "QR9", status := Status.active, checkInTime := none,
            checkOutTime := none, violations := [] }],
        events := [{ eid := 0, name := "E", zoneId := some 0, date := 100, allocatedSlots := 1 }],
        notifications := [], broadcasts := [] }
      { id := 1, role := "student" }
      { userId := 1, zoneId := 0, zoneName := "A", date := 5, duration := 2,
        vehicleNumber := "KA01" } 10 "QRX").2
      { zid := 0, name := "A", ztype := "general", totalSlots := 2 } 5 = 0 := by
  exact ⟨rfl, rfl, rfl⟩

/-- Claim C4 amended: when the unclamped availability of the booking day
(totalSlots minus active count minus event allocations) is at least one,
a successful reserve drops the derived availability by exactly one; and
after cancelling that same booking the derived availability returns to its
pre-reserve value unconditionally. -/
theorem c4_amended (s : St) (auth : AuthUser) (req : BookingReq) (bid now : Nat)
    (qr : String) (b : Booking) (z : Zone) (t0 : Nat)
    (hok : (createBooking s auth req bid qr).1 = Except.ok b)
    (hz : findZone s req.zoneId = some z)
    (hfresh : ∀ x ∈ s.bookings, x.bid ≠ bid) :
    (1 ≤ (z.totalSlots : Int)
      - (countActiveBookings s req.zoneId (dayOf req.date) : Int)
      - (sumEventAllocFrom s req.zoneId t0 : Int) →
      availableOn (createBooking s auth req bid qr).2 z (dayOf req.date) t0 =
        availableOn s z (dayOf req.date) t0 - 1)
    ∧ (cancelBooking (createBooking s auth req bid qr).2 auth b.bid now).1 = Except.ok ()
    ∧ availableOn (cancelBooking (createBooking s auth req bid qr).2 auth b.bid now).2 z
        (dayOf req.date) t0 = availableOn s z (dayOf req.date) t0 := by
  have hzid : z.zid = req.zoneId := by simpa using List.find?_some hz
  rcases createBooking_cases s auth req bid qr with ⟨e, heq⟩ | ⟨hown, z1, hz1, hcap, heq⟩
  · rw [heq] at hok
    cases hok
  · rw [hz] at hz1
    cases hz1
    have hb : b = newBooking req bid qr := by
      rw [heq] at hok
      simpa using hok.symm
    subst hb
    have hc1 : countActiveBookings (createBooking s auth req bid qr).2 z.zid (dayOf req.date) =
        countActiveBookings s z.zid (dayOf req.date) + 1 := by
      rw [heq]
      unfold countActiveBookings
      dsimp only
      rw [List.countP_append]
      simp [activeOn, newBooking, hzid, List.countP_cons]
    have he1 : sumEventAllocFrom (createBooking s auth req bid qr).2 z.zid t0 =
        sumEventAllocFrom s z.zid t0 := by
      rw [heq]
      rfl
    have hfind1 : findBooking (createBooking s auth req bid qr).2
        (newBooking req bid qr).bid = some (newBooking req bid qr) := by
      rw [heq]
      unfold findBooking
      dsimp only
      rw [List.find?_append]
      have hleft : s.bookings.find?
          (fun b0 => decide (b0.bid = (newBooking req bid qr).bid)) = none := by
        rw [List.find?_eq_none]
        intro x hx
        simp only [decide_eq_true_eq]
        exact hfresh x hx
      rw [hleft]
      simp [newBooking]
    have hcancel := cancelBooking_ok (createBooking s auth req bid qr).2 auth
      (newBooking req bid qr).bid now (newBooking req bid qr) z hfind1
      (Or.inl hown.symm) (by simp [newBooking])
      (by
        rw [heq]
        exact hz)
    have hc3 : countActiveBookings
        (cancelBooking (createBooking s auth req bid qr).2 auth
          (newBooking req bid qr).bid now).2 z.zid (dayOf req.date) =
        countActiveBookings s z.zid (dayOf req.date) := by
      unfold countActiveBookings
      rw [hcancel.2.1, heq]
      dsimp only
      rw [List.map_append, List.countP_append,
        map_update_id s.bookings (newBooking req bid qr).bid _
          (fun x hx => hfresh x hx)]
      simp [activeOn, newBooking, List.countP_cons]
    have he3 : sumEventAllocFrom
        (cancelBooking (createBooking s auth req bid qr).2 auth
          (newBooking req bid qr).bid now).2 z.zid t0 =
        sumEventAllocFrom s z.zid t0 := by
      unfold sumEventAllocFrom
      rw [hcancel.2.2.2, heq]
    refine ⟨?_, hcancel.1, ?_⟩
    · intro hroom
      rw [← hzid] at hroom
      unfold availableOn
      rw [hc1, he1]
      have h0 : (0 : Int) ≤ (z.totalSlots : Int)
          - (countActiveBookings s z.zid (dayOf req.date) : Int)
          - (sumEventAllocFrom s z.zid t0 : Int) := by omega
      push_cast
      rw [max_eq_right (by omega), max_eq_right (by omega)]
      ring
    · unfold availableOn
      rw [hc3, he3]

/-- Witness for C4 amended: the round trip on an empty two-slot zone. -/
theorem c4_witness :
    availableOn (createBooking
      { zones := [{ zid := 0, name := "A", ztype := "general", totalSlots := 2 }],
        bookings := [], events := [], notifications := [], broadcasts := [] }
      { id := 1, role := "student" }
      { userId := 1, zoneId := 0, zoneName := "A", date := 5, duration := 2,
        vehicleNumber := "KA01" } 0 "QR1").2
      { zid := 0, name := "A", ztype := "general", totalSlots := 2 } (dayOf 5) 0 =
      availableOn
        { zones := [{ zid := 0, name := "A", ztype := "general", totalSlots := 2 }],
          bookings := [], events := [], notifications := [], broadcasts := [] }
        { zid := 0, name := "A", ztype := "general", totalSlots := 2 } (dayOf 5) 0 - 1
    ∧ (cancelBooking (createBooking
      { zones := [{ zid := 0, name := "A", ztype := "general", totalSlots := 2 }],
        bookings := [], events := [], notifications := [], broadcasts := [] }
      { id := 1, role := "student" }
      { userId := 1, zoneId := 0, zoneName := "A", date := 5, duration := 2,
        vehicleNumber := "KA01" } 0 "QR1").2
      { id := 1, role := "student" }
      (newBooking
        { userId := 1, zoneId := 0, zoneName := "A", date := 5, duration := 2,
          vehicleNumber := "KA01" } 0 "QR1").bid 5).1 = Except.ok ()
    ∧ availableOn (cancelBooking (createBooking
      { zones := [{ zid := 0, name := "A", ztype := "general", totalSlots := 2 }],
        bookings := [], events := [], notifications := [], broadcasts := [] }
      { id := 1, role := "student" }
      { userId := 1, zoneId := 0, zoneName := "A", date := 5, duration := 2,
        vehicleNumber := "KA01" } 0 "QR1").2
      { id := 1, role := "student" }
      (newBooking
        { userId := 1, zoneId := 0, zoneName := "A", date := 5, duration := 2,
          vehicleNumber := "KA01" } 0 "QR1").bid 5).2
      { zid := 0, name := "A", ztype := "general", totalSlots := 2 } (dayOf 5) 0 =
      availableOn
        { zones := [{ zid := 0, name := "A", ztype := "general", totalSlots := 2 }],
          bookings := [], events := [], notifications := [], broadcasts := [] }
        { zid := 0, name := "A", ztype := "general", totalSlots := 2 } (dayOf 5) 0 := by
  have h := c4_amended
    { zones := [{ zid := 0, name := "A", ztype := "general", totalSlots := 2 }],
      bookings := [], events := [], notifications := [], broadcasts := [] }
    { id := 1, role := "student" }
    { userId := 1, zoneId := 0, zoneName := "A", date := 5, duration := 2,
      vehicleNumber := "KA01" } 0 5 "QR1"
    (newBooking
      { userId := 1, zoneId := 0, zoneName := "A", date := 5, duration := 2,
        vehicleNumber := "KA01" } 0 "QR1")
    { zid := 0, name := "A", ztype := "general", totalSlots := 2 } 0
    rfl rfl (by intro x hx; cases hx)
  exact ⟨h.1 (by decide), h.2.1, h.2.2⟩

/-! Claim C7: check-out ordering and the freed slot. -/

/-- Claim C7: check-out of an active booking that was never checked in
fails with the check-in-required error and writes nothing; after a valid
check-in followed by check-out the booking is completed with checkOutTime
set, and the availability helper value for the zone rises by exactly one
relative to just before the checkout (under the capacity invariant and
with the booking dated on the measured day). -/
theorem c7_checkout_ordering (s : St) (qr : String) (t now : Nat) (b : Booking) (z : Zone)
    (hfind : findActiveByQr s qr = some b)
    (hnd : (s.bookings.map Booking.bid).Nodup)
    (hz : findZone s b.zoneId = some z)
    (hday : dayOf b.date = dayOf now)
    (hcap : countActiveBookings s b.zoneId (dayOf now) ≤ z.totalSlots)
    (hco : b.checkOutTime = none) :
    (b.checkInTime = none → checkOut s qr now = (Except.error CheckErr.checkInRequired, s))
    ∧ (b.checkInTime = none →
      (checkOut (checkIn s qr t).2 qr now).1 = Except.ok ()
      ∧ findBooking (checkOut (checkIn s qr t).2 qr now).2 b.bid =
          some { b with checkInTime := some t, checkOutTime := some now,
                        status := Status.completed }
      ∧ ∀ a : Int, getZoneAvailability (checkIn s qr t).2 b.zoneId now = some a →
          getZoneAvailability (checkOut (checkIn s qr t).2 qr now).2 b.zoneId now =
            some (a + 1)) := by
  have hact : b.status = Status.active := by
    have := List.find?_some hfind
    simp only [decide_eq_true_eq] at this
    exact this.2
  have hbmem : b ∈ s.bookings := List.mem_of_find?_eq_some hfind
  constructor
  · intro hci
    unfold checkOut
    split
    next hnone =>
      rw [hfind] at hnone
      cases hnone
    next b0 hsome =>
      rw [hfind] at hsome
      cases hsome
      rw [if_pos (by simp [hci])]
  · intro hci
    have hIn := checkIn_ok s qr t b hfind hci
    have hU1b : (fun x => if x.bid = b.bid then { x with checkInTime := some t } else x) b =
        { b with checkInTime := some t } := if_pos rfl
    have hfind1 : findActiveByQr (checkIn s qr t).2 qr =
        some { b with checkInTime := some t } := by
      unfold findActiveByQr
      rw [hIn.2.1]
      rw [find?_map_invar s.bookings _ _
        (by
          intro x
          by_cases hx : x.bid = b.bid
          · rw [if_pos hx]
          · rw [if_neg hx])]
      unfold findActiveByQr at hfind
      rw [hfind, Option.map_some']
      simp
    have hz1 : findZone (checkIn s qr t).2 b.zoneId = some z := by
      unfold findZone
      rw [hIn.2.2.1]
      exact hz
    have hOut := checkOut_ok (checkIn s qr t).2 qr now
      { b with checkInTime := some t } z hfind1 rfl hco hz1
    have hnd1 : ((checkIn s qr t).2.bookings.map Booking.bid).Nodup := by
      rw [hIn.2.1, map_bid_update s.bookings b.bid
        (fun x => { x with checkInTime := some t }) (fun x => rfl)]
      exact hnd
    have hb1mem : { b with checkInTime := some t } ∈ (checkIn s qr t).2.bookings := by
      rw [hIn.2.1, ← hU1b]
      exact List.mem_map_of_mem _ hbmem
    refine ⟨hOut.1, ?_, ?_⟩
    · unfold findBooking
      rw [hOut.2.1]
      exact find?_bid_update_self (checkIn s qr t).2.bookings
        { b with checkInTime := some t }
        (fun x => { x with checkOutTime := some now, status := Status.completed })
        (fun _ => rfl) hb1mem hnd1
    · intro a hga
      have hc1 : countActiveBookings (checkIn s qr t).2 b.zoneId (dayOf now) =
          countActiveBookings s b.zoneId (dayOf now) := by
        unfold countActiveBookings
        rw [hIn.2.1]
        apply countP_map_eq
        intro x hx
        by_cases hxb : x.bid = b.bid
        · rw [if_pos hxb]
          simp [activeOn]
        · rw [if_neg hxb]
      have hpb1 : activeOn b.zoneId (dayOf now)
          { b with checkInTime := some t } = true := by
        simp [activeOn, hact, hday]
      have hpos : 0 < countActiveBookings s b.zoneId (dayOf now) := by
        unfold countActiveBookings
        refine List.countP_pos_iff.mpr ⟨b, hbmem, ?_⟩
        simp [activeOn, hact, hday]
      have hc2 : countActiveBookings (checkOut (checkIn s qr t).2 qr now).2
          b.zoneId (dayOf now) + 1 = countActiveBookings s b.zoneId (dayOf now) := by
        unfold countActiveBookings
        rw [hOut.2.1]
        rw [countP_map_update_toggle (checkIn s qr t).2.bookings
          { b with checkInTime := some t }
          (fun x => { x with checkOutTime := some now, status := Status.completed })
          (activeOn b.zoneId (dayOf now)) hb1mem hnd1 hpb1
          (by simp [activeOn])]
        exact hc1
      have hz2 : findZone (checkOut (checkIn s qr t).2 qr now).2 b.zoneId = some z := by
        unfold findZone
        rw [hOut.2.2.1]
        exact hz1
      unfold getZoneAvailability at hga ⊢
      rw [hz1, Option.map_some'] at hga
      rw [hz2, Option.map_some']
      cases hga
      rw [hc1]
      congr 1
      have h1 : (0 : Int) ≤ (z.totalSlots : Int) -
          (countActiveBookings (checkOut (checkIn s qr t).2 qr now).2
            b.zoneId (dayOf now) : Int) := by omega
      have h2 : (0 : Int) ≤ (z.totalSlots : Int) -
          (countActiveBookings s b.zoneId (dayOf now) : Int) := by omega
      rw [max_eq_right h1, max_eq_right h2]
      omega

/-- Witness for C7 on a concrete one-booking state. -/
theorem c7_witness :
    ((checkOut (checkIn
      { zones := [{ zid := 0, name := "A", ztype := "general", totalSlots := 2 }],
        bookings := [
          { bid := 8, userId := 1, zoneId := 0, zoneName := "A", date := 5,
            startTime := 8, endTime := 10, duration := 2, vehicleNumber := "K",
            qrCode := "QR8", status := Status.active, checkInTime := none,
            checkOutTime := none, violations := [] }],
        events := [], notifications := [], broadcasts := [] } "QR8" 9).2 "QR8" 10).1 =
      Except.ok ()
    ∧ findBooking (checkOut (checkIn
      { zones := [{ zid := 0, name := "A", ztype := "general", totalSlots := 2 }],
        bookings := [
          { bid := 8, userId := 1, zoneId := 0, zoneName := "A", date := 5,
            startTime := 8, endTime := 10, duration := 2, vehicleNumber := "K",
            qrCode := "QR8", status := Status.active, checkInTime := none,
            checkOutTime := none, violations := [] }],
        events := [], notifications := [], broadcasts := [] } "QR8" 9).2 "QR8" 10).2 8 =
      some { bid := 8, userId := 1, zoneId := 0, zoneName := "A", date := 5,
             startTime := 8, endTime := 10, duration := 2, vehicleNumber := "K",
             qrCode := "QR8", status := Status.completed, checkInTime := some 9,
             checkOutTime := some 10, violations := [] }
    ∧ ∀ a : Int, getZoneAvailability (checkIn
      { zones := [{ zid := 0, name := "A", ztype := "general", totalSlots := 2 }],
        bookings := [
          { bid := 8, userId := 1, zoneId := 0, zoneName := "A", date := 5,
            startTime := 8, endTime := 10, duration := 2, vehicleNumber := "K",
            qrCode := "QR8", status := Status.active, checkInTime := none,
            checkOutTime := none, violations := [] }],
        events := [], notifications := [], broadcasts := [] } "QR8" 9).2 0 10 = some a →
      getZoneAvailability (checkOut (checkIn
        { zones := [{ zid := 0, name := "A", ztype := "general", totalSlots := 2 }],
          bookings := [
            { bid := 8, userId := 1, zoneId := 0, zoneName := "A", date := 5,
              startTime := 8, endTime := 10, duration := 2, vehicleNumber := "K",
              qrCode := "QR8", status := Status.active, checkInTime := none,
              checkOutTime := none, violations := [] }],
          events := [], notifications := [], broadcasts := [] } "QR8" 9).2 "QR8" 10).2 0 10 =
        some (a + 1)) :=
  (c7_checkout_ordering
    { zones := [{ zid := 0, name := "A", ztype := "general", totalSlots := 2 }],
      bookings := [
        { bid := 8, userId := 1, zoneId := 0, zoneName := "A", date := 5,
          startTime := 8, endTime := 10, duration := 2, vehicleNumber := "K",
          qrCode := "QR8", status := Status.active, checkInTime := none,
          checkOutTime := none, violations := [] }],
      events := [], notifications := [], broadcasts := [] } "QR8" 9 10
    { bid := 8, userId := 1, zoneId := 0, zoneName := "A", date := 5,
      startTime := 8, endTime := 10, duration := 2, vehicleNumber := "K",
      qrCode := "QR8", status := Status.active, checkInTime := none,
      checkOutTime := none, violations := [] }
    { zid := 0, name := "A", ztype := "general", totalSlots := 2 }
    rfl (by decide) rfl (by decide) (by decide) rfl).2 rfl

/-! Per-operation facts feeding the capacity invariant. -/

/-- Booking creation never touches the zone registry. -/
theorem createBooking_zones (s : St) (auth : AuthUser) (req : BookingReq) (bid : Nat)
    (qr : String) : (createBooking s auth req bid qr).2.zones = s.zones := by
  rcases createBooking_cases s auth req bid qr with ⟨e, heq⟩ | ⟨_, z, _, _, heq⟩ <;> rw [heq]

/-- Cancellation never touches the zone registry. -/
theorem cancelBooking_zones (s : St) (auth : AuthUser) (bid now : Nat) :
    (cancelBooking s auth bid now).2.zones = s.zones := by
  unfold cancelBooking
  split
  · rfl
  · split
    · rfl
    · split
      · rfl
      · dsimp only
        split
        · rfl
        · rfl

/-- Cancellation can only lower the active count of any zone and day. -/
theorem cancelBooking_count_le (s : St) (auth : AuthUser) (bid now zid d : Nat) :
    countActiveBookings (cancelBooking s auth bid now).2 zid d ≤
      countActiveBookings s zid d := by
  have hmap : ∀ s0 : St,
      (s0.bookings.map (fun b0 => if b0.bid = bid then
        { b0 with status := Status.cancelled } else b0)).countP (activeOn zid d) ≤
      s0.bookings.countP (activeOn zid d) := by
    intro s0
    apply countP_map_le
    intro x hx hpx
    by_cases hxb : x.bid = bid
    · rw [if_pos hxb] at hpx
      simp [activeOn] at hpx
    · rw [if_neg hxb] at hpx
      exact hpx
  unfold cancelBooking
  split
  · exact Nat.le_refl _
  · split
    · exact Nat.le_refl _
    · split
      · exact Nat.le_refl _
      · dsimp only
        split
        · exact hmap s
        · exact hmap s

/-- Check-in never touches the zone registry. -/
theorem checkIn_zones (s : St) (qr : String) (now : Nat) :
    (checkIn s qr now).2.zones = s.zones := by
  unfold checkIn
  split
  · rfl
  · split
    · rfl
    · rfl

/-- Check-in leaves the active count of every zone and day unchanged. -/
theorem checkIn_count_eq (s : St) (qr : String) (now zid d : Nat) :
    countActiveBookings (checkIn s qr now).2 zid d = countActiveBookings s zid d := by
  unfold checkIn
  split
  · rfl
  next b hsome =>
    split
    · rfl
    · unfold countActiveBookings
      dsimp only
      apply countP_map_eq
      intro x hx
      by_cases hxb : x.bid = b.bid
      · rw [if_pos hxb]
        simp [activeOn]
      · rw [if_neg hxb]

/-- Check-out never touches the zone registry. -/
theorem checkOut_zones (s : St) (qr : String) (now : Nat) :
    (checkOut s qr now).2.zones = s.zones := by
  unfold checkOut
  split
  · rfl
  · split
    · rfl
    · split
      · rfl
      · dsimp only
        split
        · rfl
        · rfl

/-- Check-out can only lower the active count of any zone and day. -/
theorem checkOut_count_le (s : St) (qr : String) (now zid d : Nat) :
    countActiveBookings (checkOut s qr now).2 zid d ≤ countActiveBookings s zid d := by
  unfold checkOut
  split
  · exact Nat.le_refl _
  next b hsome =>
    split
    · exact Nat.le_refl _
    · split
      · exact Nat.le_refl _
      · dsimp only
        have hmap :
            ((s.bookings.map (fun x => if x.bid = b.bid then
              { x with checkOutTime := some now, status := Status.completed } else x)).countP
                (activeOn zid d)) ≤ s.bookings.countP (activeOn zid d) := by
          apply countP_map_le
          intro x hx hpx
          by_cases hxb : x.bid = b.bid
          · rw [if_pos hxb] at hpx
            simp [activeOn] at hpx
          · rw [if_neg hxb] at hpx
            exact hpx
        split
        · exact hmap
        · exact hmap

/-- Event creation never touches the zone registry. -/
theorem createEvent_zones (s : St) (auth : AuthUser) (req : EventReq) (eid now : Nat) :
    (createEvent s auth req eid now).2.zones = s.zones := by
  unfold createEvent
  repeat' first
  | split
  | dsimp only

/-- Event creation never touches the booking ledger. -/
theorem createEvent_bookings (s : St) (auth : AuthUser) (req : EventReq) (eid now : Nat) :
    (createEvent s auth req eid now).2.bookings = s.bookings := by
  unfold createEvent
  repeat' first
  | split
  | dsimp only

/-- One sweep iteration never touches the zone registry. -/
theorem expireOne_zones (s : St) (bid now : Nat) :
    (expireOne s bid now).zones = s.zones := by
  unfold expireOne
  split
  · rfl
  · dsimp only
    split
    · rfl
    · rfl

/-- One sweep iteration can only lower the active count of any zone and
day. -/
theorem expireOne_count_le (s : St) (bid now zid d : Nat) :
    countActiveBookings (expireOne s bid now) zid d ≤ countActiveBookings s zid d := by
  unfold expireOne
  split
  · exact Nat.le_refl _
  next b hsome =>
    have hmap :
        ((s.bookings.map (fun b0 => if b0.bid = bid then
          { b0 with status := Status.expired, violations := expireViolations b0 now }
          else b0)).countP (activeOn zid d)) ≤ s.bookings.countP (activeOn zid d) := by
      apply countP_map_le
      intro x hx hpx
      by_cases hxb : x.bid = bid
      · rw [if_pos hxb] at hpx
        simp [activeOn] at hpx
      · rw [if_neg hxb] at hpx
        exact hpx
    dsimp only
    split
    · exact hmap
    · exact hmap

/-- The sweep loop never touches the zone registry. -/
theorem runExpiry_zones (now : Nat) : ∀ (bids : List Nat) (s : St),
    (runExpiry now s bids).zones = s.zones := by
  intro bids
  induction bids with
  | nil => intro s; rfl
  | cons h t ih =>
    intro s
    unfold runExpiry
    rw [ih (expireOne s h now), expireOne_zones]

/-- The sweep loop can only lower the active count of any zone and day. -/
theorem runExpiry_count_le (now : Nat) : ∀ (bids : List Nat) (s : St) (zid d : Nat),
    countActiveBookings (runExpiry now s bids) zid d ≤ countActiveBookings s zid d := by
  intro bids
  induction bids with
  | nil => intro s zid d; exact Nat.le_refl _
  | cons h t ih =>
    intro s zid d
    unfold runExpiry
    exact Nat.le_trans (ih (expireOne s h now) zid d) (expireOne_count_le s h now zid d)

/-! Claim C1: the system-wide capacity invariant. -/

/-- Claim C1 counterexample: the combined invariant fails after a committed
event creation followed by a committed booking creation. On a two-slot zone
an admin event allocating both slots is accepted, then a booking is also
accepted because the booking capacity check ignores event allocations:
afterwards active bookings plus event allocations is three on a zone of
two. -/
theorem c1_counterexample :
    (createEvent
      { zones := [{ zid := 0, name := "A", ztype := "general", totalSlots := 2 }],
        bookings := [], events := [], notifications := [], broadcasts := [] }
      { id := 9, role := "admin" }
      { name := "Fest", date := 100, allocatedSlots := 2, zoneId := some 0 } 0 0).1 =
      Except.ok { eid := 0, name := "Fest", zoneId := some 0, date := 100, allocatedSlots := 2 }
    ∧ (createBooking
      (createEvent
        { zones := [{ zid := 0, name := "A", ztype := "general", totalSlots := 2 }],
          bookings := [], events := [], notifications := [], broadcasts := [] }
        { id := 9, role := "admin" }
        { name := "Fest", date := 100, allocatedSlots := 2, zoneId := some 0 } 0 0).2
      { id := 1, role := "student" }
      { userId := 1, zoneId := 0, zoneName := "A", date := 5, duration := 2,
        vehicleNumber := "KA01" } 0 "QR1").1 =
      Except.ok (newBooking
        { userId := 1, zoneId := 0, zoneName := "A", date := 5, duration := 2,
          vehicleNumber := "KA01" } 0 "QR1")
    ∧ ¬ (countActiveBookings
        (createBooking
          (createEvent
            { zones := [{ zid := 0, name := "A", ztype := "general", totalSlots := 2 }],
              bookings := [], events := [], notifications := [], broadcasts := [] }
            { id := 9, role := "admin" }
            { name := "Fest", date := 100, allocatedSlots := 2, zoneId := some 0 } 0 0).2
          { id := 1, role := "student" }
          { userId := 1, zoneId := 0, zoneName := "A", date := 5, duration := 2,
            vehicleNumber := "KA01" } 0 "QR1").2 0 0
        + sumEventAllocations
          (createBooking
            (createEvent
              { zones := [{ zid := 0, name := "A", ztype := "general", totalSlots := 2 }],
                bookings := [], events := [], notifications := [], broadcasts := [] }
              { id := 9, role := "admin" }
              { name := "Fest", date := 100, allocatedSlots := 2, zoneId := some 0 } 0 0).2
            { id := 1, role := "student" }
            { userId := 1, zoneId := 0, zoneName := "A", date := 5, duration := 2,
              vehicleNumber := "KA01" } 0 "QR1").2 0 ≤ 2) := by
  exact ⟨rfl, rfl, by decide⟩

/-- Claim C1 amended: the invariant the code does maintain is the
bookings-only bound: for every zone and day the active-booking count never
exceeds totalSlots, and every committed mutation preserves it (given unique
zone ids). The claimed combined bound with event allocations is not
maintained, since neither the booking capacity check nor the event
allocation check accounts for event allocations. -/
theorem c1_amended (s s2 : St)
    (hnd : (s.zones.map Zone.zid).Nodup)
    (hinv : CapInv s)
    (hstep : Step s s2) : CapInv s2 := by
  cases hstep with
  | book auth req bid qr =>
    rcases createBooking_cases s auth req bid qr with ⟨e, heq⟩ | ⟨hown, z, hzfind, hcap, heq⟩
    · rw [heq]
      exact hinv
    · rw [heq]
      intro z2 hz2 d
      replace hz2 : z2 ∈ s.zones := hz2
      unfold countActiveBookings
      dsimp only
      rw [List.countP_append]
      by_cases hp : activeOn z2.zid d (newBooking req bid qr) = true
      · have hp2 : req.zoneId = z2.zid ∧ dayOf req.date = d := by
          have := hp
          simp only [activeOn, newBooking, decide_eq_true_eq] at this
          exact ⟨this.1, this.2.2⟩
        have hzmem : z ∈ s.zones := List.mem_of_find?_eq_some hzfind
        have hzzid : z.zid = req.zoneId := by simpa using List.find?_some hzfind
        have hzz : z2 = z :=
          List.inj_on_of_nodup_map hnd hz2 hzmem (by rw [hzzid, hp2.1])
        have hc : s.bookings.countP (activeOn z2.zid d) < z2.totalSlots := by
          rw [hzz]
          have := hcap
          unfold countActiveBookings at this
          rw [hzzid, ← hp2.2]
          exact this
        have hone : ([newBooking req bid qr].countP (activeOn z2.zid d)) = 1 := by
          simp [List.countP_cons, hp]
        omega
      · have hzero : ([newBooking req bid qr].countP (activeOn z2.zid d)) = 0 := by
          simp only [Bool.not_eq_true] at hp
          simp [List.countP_cons, hp]
        have := hinv z2 hz2 d
        unfold countActiveBookings at this
        omega
  | cancel auth bid now =>
    intro z2 hz2 d
    rw [cancelBooking_zones] at hz2
    exact Nat.le_trans (cancelBooking_count_le s auth bid now z2.zid d) (hinv z2 hz2 d)
  | checkin qr now =>
    intro z2 hz2 d
    rw [checkIn_zones] at hz2
    rw [checkIn_count_eq]
    exact hinv z2 hz2 d
  | checkout qr now =>
    intro z2 hz2 d
    rw [checkOut_zones] at hz2
    exact Nat.le_trans (checkOut_count_le s qr now z2.zid d) (hinv z2 hz2 d)
  | event auth req eid now =>
    intro z2 hz2 d
    rw [createEvent_zones] at hz2
    unfold countActiveBookings
    rw [createEvent_bookings]
    exact hinv z2 hz2 d
  | expiry now =>
    intro z2 hz2 d
    unfold expireOldBookings at hz2 ⊢
    rw [runExpiry_zones] at hz2
    exact Nat.le_trans (runExpiry_count_le now _ s z2.zid d) (hinv z2 hz2 d)

/-- Witness for C1 amended: the bookings-only invariant holds after a
concrete committed reserve on an initially empty one-slot zone. -/
theorem c1_witness :
    CapInv (createBooking
      { zones := [{ zid := 0, name := "A", ztype := "general", totalSlots := 1 }],
        bookings := [], events := [], notifications := [], broadcasts := [] }
      { id := 1, role := "student" }
      { userId := 1, zoneId := 0, zoneName := "A", date := 5, duration := 2,
        vehicleNumber := "KA01" } 0 "QR1").2 :=
  c1_amended
    { zones := [{ zid := 0, name := "A", ztype := "general", totalSlots := 1 }],
      bookings := [], events := [], notifications := [], broadcasts := [] }
    _ (by decide) (fun z hz d => Nat.zero_le _)
    (Step.book _ { id := 1, role := "student" }
      { userId := 1, zoneId := 0, zoneName := "A", date := 5, duration := 2,
        vehicleNumber := "KA01" } 0 "QR1")

/-! Claim C9: the expiry sweep. -/

/-- Finding a member by its id returns that member when ids are unique. -/
theorem find?_bid_of_nodup (l : List Booking) (b : Booking) (hb : b ∈ l)
    (hnd : (l.map Booking.bid).Nodup) :
    l.find? (fun x => decide (x.bid = b.bid)) = some b := by
  induction l with
  | nil => cases hb
  | cons a t ih =>
    rw [List.map_cons] at hnd
    have hcons := List.nodup_cons.mp hnd
    by_cases ha : a.bid = b.bid
    · have hab : a = b := by
        cases List.mem_cons.mp hb with
        | inl h => exact h.symm
        | inr h => exact absurd (ha ▸ List.mem_map_of_mem Booking.bid h) hcons.1
      rw [List.find?_cons_of_pos _ (by simp [ha]), hab]
    · have hbt : b ∈ t := by
        cases List.mem_cons.mp hb with
        | inl h =>
          subst h
          exact absurd rfl ha
        | inr h => exact h
      rw [List.find?_cons_of_neg _ (by simp [ha])]
      exact ih hbt hcons.2

/-- One sweep iteration leaves every other booking untouched. -/
theorem expireOne_other (s : St) (bid bid2 now : Nat) (hne : bid2 ≠ bid) :
    findBooking (expireOne s bid now) bid2 = findBooking s bid2 := by
  unfold expireOne
  split
  · rfl
  next b hsome =>
    dsimp only
    split
    · exact find?_bid_update s.bookings bid bid2
        (fun b0 => { b0 with status := Status.expired, violations := expireViolations b0 now })
        (fun x => rfl) hne
    · exact find?_bid_update s.bookings bid bid2
        (fun b0 => { b0 with status := Status.expired, violations := expireViolations b0 now })
        (fun x => rfl) hne

/-- One sweep iteration only appends notifications. -/
theorem expireOne_notifs (s : St) (bid now : Nat) (n : Notif)
    (hn : n ∈ s.notifications) : n ∈ (expireOne s bid now).notifications := by
  unfold expireOne
  split
  · exact hn
  · dsimp only
    split
    · exact List.mem_append_left _ hn
    · exact List.mem_append_left _ hn

/-- One sweep iteration only appends broadcasts. -/
theorem expireOne_msgs (s : St) (bid now : Nat) (m : Msg)
    (hm : m ∈ s.broadcasts) : m ∈ (expireOne s bid now).broadcasts := by
  unfold expireOne
  split
  · exact hm
  · dsimp only
    split
    · exact hm
    · exact List.mem_append_left _ hm

/-- One sweep iteration preserves the list of booking ids. -/
theorem expireOne_bids (s : St) (bid now : Nat) :
    (expireOne s bid now).bookings.map Booking.bid = s.bookings.map Booking.bid := by
  unfold expireOne
  split
  · rfl
  · dsimp only
    split
    · exact map_bid_update s.bookings bid
        (fun b0 => { b0 with status := Status.expired, violations := expireViolations b0 now })
        (fun x => rfl)
    · exact map_bid_update s.bookings bid
        (fun b0 => { b0 with status := Status.expired, violations := expireViolations b0 now })
        (fun x => rfl)

/-- The sweep loop leaves a booking whose id is not scheduled untouched. -/
theorem runExpiry_find_not_mem (now : Nat) : ∀ (bids : List Nat) (s : St) (bid2 : Nat),
    bid2 ∉ bids → findBooking (runExpiry now s bids) bid2 = findBooking s bid2 := by
  intro bids
  induction bids with
  | nil => intro s bid2 hmem; rfl
  | cons h t ih =>
    intro s bid2 hmem
    have h1 : bid2 ≠ h := fun hc => hmem (by rw [hc]; exact List.mem_cons_self h t)
    have h2 : bid2 ∉ t := fun hc => hmem (List.mem_cons_of_mem h hc)
    unfold runExpiry
    rw [ih (expireOne s h now) bid2 h2]
    exact expireOne_other s h bid2 now h1

/-- The sweep loop only appends notifications. -/
theorem runExpiry_notifs (now : Nat) : ∀ (bids : List Nat) (s : St) (n : Notif),
    n ∈ s.notifications → n ∈ (runExpiry now s bids).notifications := by
  intro bids
  induction bids with
  | nil => intro s n hn; exact hn
  | cons h t ih =>
    intro s n hn
    exact ih (expireOne s h now) n (expireOne_notifs s h now n hn)

/-- The sweep loop only appends broadcasts. -/
theorem runExpiry_msgs (now : Nat) : ∀ (bids : List Nat) (s : St) (m : Msg),
    m ∈ s.broadcasts → m ∈ (runExpiry now s bids).broadcasts := by
  intro bids
  induction bids with
  | nil => intro s m hm; exact hm
  | cons h t ih =>
    intro s m hm
    exact ih (expireOne s h now) m (expireOne_msgs s h now m hm)

/-- One sweep iteration on the booking itself: it is marked expired with
its violation list extended per the rule, a Booking Expired notification is
created, and a zone_update broadcast is emitted when the zone exists. -/
theorem expireOne_processes (s : St) (now : Nat) (b : Booking) (z : Zone)
    (hnd : (s.bookings.map Booking.bid).Nodup)
    (hfind : findBooking s b.bid = some b)
    (hz : findZone s b.zoneId = some z) :
    findBooking (expireOne s b.bid now) b.bid =
      some { b with status := Status.expired, violations := expireViolations b now }
    ∧ (∃ n ∈ (expireOne s b.bid now).notifications,
        n.userId = b.userId ∧ n.title = "Booking Expired")
    ∧ ∃ avail : Int, Msg.zoneUpdate b.zoneId avail ∈ (expireOne s b.bid now).broadcasts := by
  have hbmem : b ∈ s.bookings := List.mem_of_find?_eq_some hfind
  unfold expireOne
  split
  next hnone =>
    rw [hfind] at hnone
    cases hnone
  next b0 hsome =>
    rw [hfind] at hsome
    cases hsome
    dsimp only
    split
    next hga =>
      exfalso
      simp only [getZoneAvailability, findZone, updateBooking] at hga
      unfold findZone at hz
      rw [Option.map_eq_none'] at hga
      rw [hz] at hga
      cases hga
    next avail hga =>
      refine ⟨?_, ?_, avail, ?_⟩
      · exact find?_bid_update_self s.bookings b
          (fun b0 => { b0 with status := Status.expired, violations := expireViolations b0 now })
          (fun x => rfl) hbmem hnd
      · refine ⟨{ userId := b.userId, title := "Booking Expired",
                   message := b.zoneName, ntype := "warning" }, ?_, rfl, rfl⟩
        exact List.mem_append_right _ (List.mem_singleton.mpr rfl)
      · exact List.mem_append_right _ (List.mem_singleton.mpr rfl)

/-- The sweep loop processes every scheduled booking: expired status,
violations per rule, notification and broadcast. -/
theorem runExpiry_processes (now : Nat) : ∀ (bids : List Nat) (s : St) (b : Booking) (z : Zone),
    bids.Nodup → (s.bookings.map Booking.bid).Nodup →
    b.bid ∈ bids → findBooking s b.bid = some b →
    findZone s b.zoneId = some z →
    findBooking (runExpiry now s bids) b.bid =
      some { b with status := Status.expired, violations := expireViolations b now }
    ∧ (∃ n ∈ (runExpiry now s bids).notifications,
        n.userId = b.userId ∧ n.title = "Booking Expired")
    ∧ ∃ avail : Int, Msg.zoneUpdate b.zoneId avail ∈ (runExpiry now s bids).broadcasts := by
  intro bids
  induction bids with
  | nil =>
    intro s b z hbd hnd hmem
    cases hmem
  | cons h t ih =>
    intro s b z hbd hnd hmem hfind hz
    rw [List.nodup_cons] at hbd
    unfold runExpiry
    by_cases hhb : h = b.bid
    · subst hhb
      have hone := expireOne_processes s now b z hnd hfind hz
      have hnotin : b.bid ∉ t := hbd.1
      refine ⟨?_, ?_, ?_⟩
      · rw [runExpiry_find_not_mem now t (expireOne s b.bid now) b.bid hnotin]
        exact hone.1
      · obtain ⟨n, hn, hnu, hnt⟩ := hone.2.1
        exact ⟨n, runExpiry_notifs now t (expireOne s b.bid now) n hn, hnu, hnt⟩
      · obtain ⟨avail, hmm⟩ := hone.2.2
        exact ⟨avail, runExpiry_msgs now t (expireOne s b.bid now) _ hmm⟩
    · have hmem' : b.bid ∈ t := by
        cases List.mem_cons.mp hmem with
        | inl hc => exact absurd hc.symm hhb
        | inr hc => exact hc
      have hnd' : ((expireOne s h now).bookings.map Booking.bid).Nodup := by
        rw [expireOne_bids]
        exact hnd
      have hfind' : findBooking (expireOne s h now) b.bid = some b := by
        rw [expireOne_other s h b.bid now (fun hc => hhb hc.symm)]
        exact hfind
      have hz' : findZone (expireOne s h now) b.zoneId = some z := by
        unfold findZone
        rw [expireOne_zones]
        exact hz
      exact ih (expireOne s h now) b z hbd.2 hnd' hmem' hfind' hz'

/-- Claim C9: each sweep run marks every overdue active or checked-in
booking expired, recording a no-checkout violation when it was checked in
without a check-out and a unauthorized no-show violation when it was never
checked in, and creates a Booking Expired notification plus a zone_update
broadcast for the zone (which must exist for the broadcast). -/
theorem c9_expiry_sweep (s : St) (now : Nat) (b : Booking) (z : Zone)
    (hnd : (s.bookings.map Booking.bid).Nodup)
    (hb : b ∈ s.bookings)
    (hstatus : b.status = Status.active ∨ b.status = Status.checkedIn)
    (hend : b.endTime < now)
    (hz : findZone s b.zoneId = some z) :
    ∃ b2 : Booking, findBooking (expireOldBookings s now) b.bid = some b2
      ∧ b2.status = Status.expired
      ∧ (b.checkInTime.isSome = true → b.checkOutTime = none →
          b2.violations = b.violations ++ [{ vtype := "no-checkout", timestamp := now }])
      ∧ (b.checkInTime = none →
          b2.violations = b.violations ++ [{ vtype := "unauthorized", timestamp := now }])
      ∧ (∃ n ∈ (expireOldBookings s now).notifications,
          n.userId = b.userId ∧ n.title = "Booking Expired")
      ∧ ∃ avail : Int,
          Msg.zoneUpdate b.zoneId avail ∈ (expireOldBookings s now).broadcasts := by
  have hmatch : expireMatch now b = true := by
    simp only [expireMatch, decide_eq_true_eq]
    exact ⟨hstatus, hend⟩
  have hmem : b.bid ∈ (s.bookings.filter (expireMatch now)).map Booking.bid :=
    List.mem_map_of_mem Booking.bid (List.mem_filter.mpr ⟨hb, hmatch⟩)
  have hbd : ((s.bookings.filter (expireMatch now)).map Booking.bid).Nodup :=
    List.Nodup.sublist (List.Sublist.map Booking.bid (List.filter_sublist s.bookings)) hnd
  have hfind : findBooking s b.bid = some b := find?_bid_of_nodup s.bookings b hb hnd
  have hrun := runExpiry_processes now ((s.bookings.filter (expireMatch now)).map Booking.bid)
    s b z hbd hnd hmem hfind hz
  refine ⟨{ b with status := Status.expired, violations := expireViolations b now },
    hrun.1, rfl, ?_, ?_, hrun.2.1, hrun.2.2⟩
  · intro hci hco
    show expireViolations b now = _
    unfold expireViolations
    rw [if_pos ⟨hci, hco⟩]
  · intro hci
    show expireViolations b now = _
    unfold expireViolations
    rw [if_neg (by simp [hci]), if_pos hci]

/-- Witness for C9 on a concrete overdue no-show booking. -/
theorem c9_witness :
    ∃ b2 : Booking, findBooking (expireOldBookings
      { zones := [{ zid := 0, name := "A", ztype := "general", totalSlots := 2 }],
        bookings := [
          { bid := 11, userId := 1, zoneId := 0, zoneName := "A", date := 5,
            startTime := 8, endTime := 3, duration := 2, vehicleNumber := "K",
            qrCode := "QR11", status := Status.active, checkInTime := none,
            checkOutTime := none, violations := [] }],
        events := [], notifications := [], broadcasts := [] } 50) 11 = some b2
      ∧ b2.status = Status.expired
      ∧ (Option.isSome (none : Option Nat) = true → (none : Option Nat) = none →
          b2.violations = [] ++ [{ vtype := "no-checkout", timestamp := 50 }])
      ∧ ((none : Option Nat) = none →
          b2.violations = [] ++ [{ vtype := "unauthorized", timestamp := 50 }])
      ∧ (∃ n ∈ (expireOldBookings
          { zones := [{ zid := 0, name := "A", ztype := "general", totalSlots := 2 }],
            bookings := [
              { bid := 11, userId := 1, zoneId := 0, zoneName := "A", date := 5,
                startTime := 8, endTime := 3, duration := 2, vehicleNumber := "K",
                qrCode := "QR11", status := Status.active, checkInTime := none,
                checkOutTime := none, violations := [] }],
            events := [], notifications := [], broadcasts := [] } 50).notifications,
          n.userId = 1 ∧ n.title = "Booking Expired")
      ∧ ∃ avail : Int, Msg.zoneUpdate 0 avail ∈ (expireOldBookings
          { zones := [{ zid := 0, name := "A", ztype := "general", totalSlots := 2 }],
            bookings := [
              { bid := 11, userId := 1, zoneId := 0, zoneName := "A", date := 5,
                startTime := 8, endTime := 3, duration := 2, vehicleNumber := "K",
                qrCode := "QR11", status := Status.active, checkInTime := none,
                checkOutTime := none, violations := [] }],
            events := [], notifications := [], broadcasts := [] } 50).broadcasts :=
  c9_expiry_sweep
    { zones := [{ zid := 0, name := "A", ztype := "general", totalSlots := 2 }],
      bookings := [
        { bid := 11, userId := 1, zoneId := 0, zoneName := "A", date := 5,
          startTime := 8, endTime := 3, duration := 2, vehicleNumber := "K",
          qrCode := "QR11", status := Status.active, checkInTime := none,
          checkOutTime := none, violations := [] }],
      events := [], notifications := [], broadcasts := [] } 50
    { bid := 11, userId := 1, zoneId := 0, zoneName := "A", date := 5,
      startTime := 8, endTime := 3, duration := 2, vehicleNumber := "K",
      qrCode := "QR11", status := Status.active, checkInTime := none,
      checkOutTime := none, violations := [] }
    { zid := 0, name := "A", ztype := "general", totalSlots := 2 }
    (by decide) (List.mem_singleton.mpr rfl) (Or.inl rfl) (by decide) rfl

end CampusParking
